import Mathlib

/-!
Verification of the matroska metadata parser (Rust crate by Brian
Langenberger) against its natural-language specification.

The development is a shallow embedding of the two source files
`src/ebml.rs` and `src/lib.rs`:

* bytes are `Nat` values below 256; a readable + seekable stream is a
  `Reader` (an immutable byte list plus a cursor);
* Rust `u64` quantities are `Nat` with explicit bounds or explicit
  wrap/underflow outcomes where the source's arithmetic can overflow;
* Rust `f64` is modelled exactly as `ℚ`: IEEE-754 bit patterns are decoded
  to their exact rational value (non-finite patterns, which no theorem
  below touches, are mapped to 0);
* fallible code returns `PResult`; a failed `assert!`/`assert_eq!` and an
  arithmetic-overflow abort are the distinguished outcome `.panicked`;
* unbounded loops are given a fuel parameter; `.outOfFuel` marks fuel
  exhaustion.  Fuel-sufficiency for the element-tree parser is proved
  below, so the fuel versions are faithful models of the loops.

`src/ids.rs` is referenced by `src/lib.rs` but is not part of the sources
provided; the numeric element-ID constants in namespace `ids` are modelled
from the spec: they are the standard Matroska element IDs named by the
spec, and they are consistent with the ID-classification sets that
`src/ebml.rs` does provide.
-/

/-- Errors of the parser, after `MatroskaError` in src/ebml.rs.  The Rust
`Io` and `UTF8` payloads (an `io::Error` cause and a `FromUtf8Error`) carry
no information the parser inspects and are dropped.  `InvalidSeekHead` does
not appear in the (older) enum of src/ebml.rs but is constructed by
src/lib.rs (`Seektable::get`), so it is part of the crate's error type;
the spec's taxonomy calls this structural-corruption class `CorruptFile`. -/
inductive MatroskaError : Type where
  | ioError : MatroskaError
  | utf8Error : MatroskaError
  | InvalidID : MatroskaError
  | InvalidSize : MatroskaError
  | InvalidUint : MatroskaError
  | InvalidFloat : MatroskaError
  | InvalidDate : MatroskaError
  | InvalidSeekHead : Nat → MatroskaError
deriving DecidableEq

/-- Outcome of running a piece of the parser.  `.ok` and `.err` mirror the
Rust `Result`; `.panicked` models an aborted process (a failed `assert!` /
`assert_eq!`, or an overflow-checked `u64` subtraction that underflowed);
`.outOfFuel` marks exhaustion of the fuel given to a modelled loop. -/
inductive PResult (α : Type) : Type where
  | ok : α → PResult α
  | err : MatroskaError → PResult α
  | panicked : PResult α
  | outOfFuel : PResult α

/-- A seekable byte source: the whole file plus the current position.
Models the `io::Read + io::Seek` value threaded through the crate. -/
structure Reader where
  data : List Nat
  pos : Nat
deriving DecidableEq

/-- Bytes remaining after the cursor. -/
def remNat (r : Reader) : Nat := r.data.length - r.pos

/-- Read a single byte, advancing the cursor (end of stream: `none`). -/
def read1 (r : Reader) : Option (Nat × Reader) :=
  match r.data.get? r.pos with
  | some b => some (b, ⟨r.data, r.pos + 1⟩)
  | none => none

/-- Read exactly `n` bytes (Rust `read_exact`): all-or-nothing. -/
def readBytes (n : Nat) (r : Reader) : Option (List Nat × Reader) :=
  if r.pos + n ≤ r.data.length then
    some ((r.data.drop r.pos).take n, ⟨r.data, r.pos + n⟩)
  else none

/-- Big-endian value of a byte list. -/
def beVal (bs : List Nat) : Nat := bs.foldl (fun a b => a * 256 + b) 0

/-! ## The element-ID classification sets of src/ebml.rs

The seven `phf_set!` tables, transcribed verbatim. -/

def IDS_MASTER : List Nat :=
  [0x80, 0x8E, 0x8F, 0xA0, 0xA6, 0xAE, 0xB6,
   0xB7, 0xBB, 0xC8, 0xDB, 0xE0, 0xE1, 0xE2,
   0xE3, 0xE4, 0xE8, 0xE9, 0x45B9, 0x4DBB,
   0x5034, 0x5035, 0x55B0, 0x55D0, 0x5854, 0x61A7,
   0x6240, 0x63C0, 0x6624, 0x67C8, 0x6911, 0x6924,
   0x6944, 0x6D80, 0x7373, 0x75A1, 0x7E5B, 0x7E7B,
   0x1043A770, 0x114D9B74, 0x1254C367, 0x1549A966,
   0x1654AE6B, 0x18538067, 0x1941A469, 0x1A45DFA3,
   0x1B538667, 0x1C53BB6B, 0x1F43B675]

def IDS_INT : List Nat := [0xFB, 0xFD, 0x537F, 0x75A2]

def IDS_UINT : List Nat :=
  [0x83, 0x88, 0x89, 0x91, 0x92, 0x96,
   0x97, 0x98, 0x9A, 0x9B, 0x9C, 0x9D,
   0x9F, 0xA7, 0xAA, 0xAB, 0xB0, 0xB2,
   0xB3, 0xB9, 0xBA, 0xC0, 0xC6, 0xC7,
   0xC9, 0xCA, 0xCB, 0xCC, 0xCD, 0xCE,
   0xCF, 0xD7, 0xE5, 0xE6, 0xE7, 0xEA,
   0xEB, 0xED, 0xEE, 0xF0, 0xF1, 0xF7,
   0xFA, 0x4254, 0x4285, 0x4286, 0x4287,
   0x42F2, 0x42F3, 0x42F7, 0x4484, 0x4598,
   0x45BC, 0x45BD, 0x45DB, 0x45DD, 0x4661,
   0x4662, 0x46AE, 0x47E1, 0x47E5, 0x47E6,
   0x5031, 0x5032, 0x5033, 0x535F, 0x5378,
   0x53AC, 0x53B8, 0x53B9, 0x53C0, 0x54AA,
   0x54B0, 0x54B2, 0x54B3, 0x54BA, 0x54BB,
   0x54CC, 0x54DD, 0x55AA, 0x55B1, 0x55B2,
   0x55B3, 0x55B4, 0x55B5, 0x55B6, 0x55B7,
   0x55B8, 0x55B9, 0x55BA, 0x55BB, 0x55BC,
   0x55BD, 0x55EE, 0x56AA, 0x56BB, 0x58D7,
   0x6264, 0x63C3, 0x63C4, 0x63C5, 0x63C6,
   0x63C9, 0x66BF, 0x66FC, 0x68CA, 0x6922,
   0x6955, 0x69BF, 0x69FC, 0x6DE7, 0x6DF8,
   0x6EBC, 0x6FAB, 0x73C4, 0x73C5, 0x7446,
   0x7E8A, 0x7E9A, 0x234E7A, 0x23E383, 0x2AD7B1]

def IDS_STRING : List Nat :=
  [0x86, 0x4282, 0x437C, 0x437D, 0x437E, 0x447A, 0x447B,
   0x4660, 0x63CA, 0x22B59C, 0x22B59D, 0x26B240,
   0x3B4040]

def IDS_UTF8 : List Nat :=
  [0x85, 0x4487, 0x45A3, 0x466E, 0x467E,
   0x4D80, 0x536E, 0x5654, 0x5741, 0x7384,
   0x7BA9, 0x258688, 0x3A9697, 0x3C83AB, 0x3E83BB]

def IDS_BINARY : List Nat :=
  [0xA1, 0xA2, 0xA3, 0xA4, 0xA5, 0xAF,
   0xBF, 0xC1, 0xC4, 0xEC, 0x4255, 0x4444,
   0x4485, 0x450D, 0x465C, 0x4675, 0x47E2,
   0x47E3, 0x47E4, 0x53AB, 0x63A2, 0x6532,
   0x66A5, 0x6933, 0x69A5, 0x6E67, 0x73A4,
   0x7D7B, 0x7EA5, 0x7EB5, 0x2EB524, 0x3CB923,
   0x3EB923]

def IDS_FLOAT : List Nat :=
  [0xB5, 0x4489, 0x55D1, 0x55D2, 0x55D3,
   0x55D4, 0x55D5, 0x55D6, 0x55D7, 0x55D8,
   0x55D9, 0x55DA, 0x78B5, 0x23314F, 0x2383E3,
   0x2FB523]

/-! ## Element IDs used by src/lib.rs

Modelled from the spec: `src/ids.rs` is not among the provided sources
(only its uses in src/lib.rs are), so these constants carry the standard
Matroska element IDs the spec names; each is consistent with the
classification sets above. -/

namespace ids

def SEGMENT : Nat := 0x18538067
def SEEKHEAD : Nat := 0x114D9B74
def SEEK : Nat := 0x4DBB
def SEEKID : Nat := 0x53AB
def SEEKPOSITION : Nat := 0x53AC
def INFO : Nat := 0x1549A966
def TRACKS : Nat := 0x1654AE6B
def ATTACHMENTS : Nat := 0x1941A469
def CHAPTERS : Nat := 0x1043A770
def TAGS : Nat := 0x1254C367
def SEGMENTUID : Nat := 0x73A4
def PREVUID : Nat := 0x3CB923
def NEXTUID : Nat := 0x3EB923
def SEGMENTFAMILY : Nat := 0x4444
def TITLE : Nat := 0x7BA9
def TIMECODESCALE : Nat := 0x2AD7B1
def DURATION : Nat := 0x4489
def DATEUTC : Nat := 0x4461
def MUXINGAPP : Nat := 0x4D80
def WRITINGAPP : Nat := 0x5741
def TRACKENTRY : Nat := 0xAE
def TRACKNUMBER : Nat := 0xD7
def TRACKUID : Nat := 0x73C5
def TRACKTYPE : Nat := 0x83
def FLAGENABLED : Nat := 0xB9
def FLAGDEFAULT : Nat := 0x88
def FLAGFORCED : Nat := 0x55AA
def FLAGHEARINGIMPAIRED : Nat := 0x55AB
def FLAGVISUALIMPAIRED : Nat := 0x55AC
def FLAGTEXTDESCRIPTIONS : Nat := 0x55AD
def FLAGORIGINAL : Nat := 0x55AE
def FLAGCOMMENTARY : Nat := 0x55AF
def FLAGLACING : Nat := 0x9C
def DEFAULTDURATION : Nat := 0x23E383
def NAME : Nat := 0x536E
def LANGUAGE : Nat := 0x22B59C
def LANGUAGE_IETF : Nat := 0x22B59D
def CODEC_ID : Nat := 0x86
def CODEC_PRIVATE : Nat := 0x63A2
def CODEC_NAME : Nat := 0x258688
def VIDEO : Nat := 0xE0
def AUDIO : Nat := 0xE1
def PIXELWIDTH : Nat := 0xB0
def PIXELHEIGHT : Nat := 0xBA
def DISPLAYWIDTH : Nat := 0x54B0
def DISPLAYHEIGHT : Nat := 0x54BA
def INTERLACED : Nat := 0x9A
def STEREOMODE : Nat := 0x53B8
def GAMMA : Nat := 0x2FB523
def SAMPLINGFREQUENCY : Nat := 0xB5
def CHANNELS : Nat := 0x9F
def BITDEPTH : Nat := 0x6264
def ATTACHEDFILE : Nat := 0x61A7
def FILEDESCRIPTION : Nat := 0x467E
def FILENAME : Nat := 0x466E
def FILEMIMETYPE : Nat := 0x4660
def FILEDATA : Nat := 0x465C
def EDITIONENTRY : Nat := 0x45B9
def EDITIONUID : Nat := 0x45BC
def EDITIONFLAGHIDDEN : Nat := 0x45BD
def EDITIONFLAGDEFAULT : Nat := 0x45DB
def EDITIONFLAGORDERED : Nat := 0x45DD
def CHAPTERATOM : Nat := 0xB6
def CHAPTERUID : Nat := 0x73C4
def CHAPTERTIMESTART : Nat := 0x91
def CHAPTERTIMEEND : Nat := 0x92
def CHAPTERFLAGHIDDEN : Nat := 0x98
def CHAPTERFLAGENABLED : Nat := 0x4598
def CHAPTERSEGMENTUID : Nat := 0x6E67
def CHAPTERSEGMENTEDITIONUID : Nat := 0x6EBC
def CHAPTERDISPLAY : Nat := 0x80
def CHAPSTRING : Nat := 0x85
def CHAPLANGUAGE : Nat := 0x437C
def CHAPLANGUAGE_IETF : Nat := 0x437D
def TAG : Nat := 0x7373
def TARGETS : Nat := 0x63C0
def TARGETTYPEVALUE : Nat := 0x68CA
def TARGETTYPE : Nat := 0x63CA
def TAG_TRACK_UID : Nat := 0x63C5
def TAG_EDITION_UID : Nat := 0x63C9
def TAG_CHAPTER_UID : Nat := 0x63C4
def TAG_ATTACHMENT_UID : Nat := 0x63C6
def SIMPLETAG : Nat := 0x67C8
def TAGNAME : Nat := 0x45A3
def TAGLANGUAGE : Nat := 0x447A
def TAGLANGUAGE_IETF : Nat := 0x447B
def TAGDEFAULT : Nat := 0x4484
def TAGSTRING : Nat := 0x4487
def TAGBINARY : Nat := 0x4485

end ids

/-! ## VINT decoding (src/ebml.rs, `read_element_id` / `read_element_size`)

The source reads a unary prefix with `read_unary1` over a big-endian bit
reader and then the remaining payload bits.  For widths the source
accepts, consumption is whole bytes, so the embedding reads bytes; the
bitwise OR of the disjoint marker and payload is written as addition
(`0x80 ||| u` with `u < 0x80` is `0x80 + u`, and so on).  When the leading
byte announces a width the source rejects, `read_unary1` keeps scanning
zero bits across bytes: it returns a too-large count (`InvalidID` /
`InvalidSize`) as soon as a one bit exists downstream, and hits end of
stream (`Io`) otherwise. -/

/-- Decode an element ID: width 1..4, marker bit preserved.
Returns (id, width-in-bytes, rest). -/
def readElementId (r : Reader) : PResult (Nat × Nat × Reader) :=
  match read1 r with
  | none => .err .ioError
  | some (b, r1) =>
    if 0x80 ≤ b then .ok (0x80 + b % 0x80, 1, r1)
    else if 0x40 ≤ b then
      match readBytes 1 r1 with
      | none => .err .ioError
      | some (cs, r2) => .ok (0x4000 + ((b % 0x40) * 256 + beVal cs), 2, r2)
    else if 0x20 ≤ b then
      match readBytes 2 r1 with
      | none => .err .ioError
      | some (cs, r2) => .ok (0x200000 + ((b % 0x20) * 65536 + beVal cs), 3, r2)
    else if 0x10 ≤ b then
      match readBytes 3 r1 with
      | none => .err .ioError
      | some (cs, r2) => .ok (0x10000000 + ((b % 0x10) * 16777216 + beVal cs), 4, r2)
    else if b ≠ 0 then .err .InvalidID
    else if (r1.data.drop r1.pos).all (· = 0) then .err .ioError
    else .err .InvalidID

/-- Decode an element size: width 1..8, marker bit stripped.
Returns (size, width-in-bytes, rest). -/
def readElementSize (r : Reader) : PResult (Nat × Nat × Reader) :=
  match read1 r with
  | none => .err .ioError
  | some (b, r1) =>
    if 0x80 ≤ b then .ok (b % 0x80, 1, r1)
    else if 0x40 ≤ b then
      match readBytes 1 r1 with
      | none => .err .ioError
      | some (cs, r2) => .ok ((b % 0x40) * 2 ^ 8 + beVal cs, 2, r2)
    else if 0x20 ≤ b then
      match readBytes 2 r1 with
      | none => .err .ioError
      | some (cs, r2) => .ok ((b % 0x20) * 2 ^ 16 + beVal cs, 3, r2)
    else if 0x10 ≤ b then
      match readBytes 3 r1 with
      | none => .err .ioError
      | some (cs, r2) => .ok ((b % 0x10) * 2 ^ 24 + beVal cs, 4, r2)
    else if 0x08 ≤ b then
      match readBytes 4 r1 with
      | none => .err .ioError
      | some (cs, r2) => .ok ((b % 0x08) * 2 ^ 32 + beVal cs, 5, r2)
    else if 0x04 ≤ b then
      match readBytes 5 r1 with
      | none => .err .ioError
      | some (cs, r2) => .ok ((b % 0x04) * 2 ^ 40 + beVal cs, 6, r2)
    else if 0x02 ≤ b then
      match readBytes 6 r1 with
      | none => .err .ioError
      | some (cs, r2) => .ok ((b % 0x02) * 2 ^ 48 + beVal cs, 7, r2)
    else if 0x01 ≤ b then
      match readBytes 7 r1 with
      | none => .err .ioError
      | some (cs, r2) => .ok (beVal cs, 8, r2)
    else if (r1.data.drop r1.pos).all (· = 0) then .err .ioError
    else .err .InvalidSize

/-- `read_element_id_size` of src/ebml.rs: ID, body size, header length. -/
def readElementIdSize (r : Reader) : PResult (Nat × Nat × Nat × Reader) :=
  match readElementId r with
  | .ok (id, idLen, r1) =>
    (match readElementSize r1 with
     | .ok (size, sizeLen, r2) => .ok (id, size, idLen + sizeLen, r2)
     | .err e => .err e
     | .panicked => .panicked
     | .outOfFuel => .outOfFuel)
  | .err e => .err e
  | .panicked => .panicked
  | .outOfFuel => .outOfFuel

/-! ## Primitive body readers (src/ebml.rs) -/

/-- `read_int`: big-endian signed integer of 0..8 bytes, sign-extended. -/
def readInt (size : Nat) (r : Reader) : PResult (Int × Reader) :=
  if size = 0 then .ok (0, r)
  else if size ≤ 8 then
    match readBytes size r with
    | none => .err .ioError
    | some (bs, r') =>
      let u := beVal bs
      .ok (if u < 2 ^ (8 * size - 1) then (u : Int) else (u : Int) - 2 ^ (8 * size), r')
  else .err .InvalidUint

/-- `read_uint`: big-endian unsigned integer of 0..8 bytes. -/
def readUint (size : Nat) (r : Reader) : PResult (Nat × Reader) :=
  if size = 0 then .ok (0, r)
  else if size ≤ 8 then
    match readBytes size r with
    | none => .err .ioError
    | some (bs, r') => .ok (beVal bs, r')
  else .err .InvalidUint

/-- Exact rational value of an IEEE-754 single-precision bit pattern.
Non-finite patterns (exponent 255), which the rational model cannot carry
and which no theorem below exercises, are mapped to 0. -/
def f32ToRat (u : Nat) : ℚ :=
  let s : Nat := u / 2 ^ 31 % 2
  let e : Nat := u / 2 ^ 23 % 2 ^ 8
  let m : Nat := u % 2 ^ 23
  let mag : ℚ :=
    if e = 0 then (m : ℚ) / 2 ^ 149
    else if e = 255 then 0
    else ((2 ^ 23 + m : Nat) : ℚ) * 2 ^ e / 2 ^ 150
  if s = 1 then -mag else mag

/-- Exact rational value of an IEEE-754 double-precision bit pattern
(non-finite patterns mapped to 0, as in `f32ToRat`). -/
def f64ToRat (u : Nat) : ℚ :=
  let s : Nat := u / 2 ^ 63 % 2
  let e : Nat := u / 2 ^ 52 % 2 ^ 11
  let m : Nat := u % 2 ^ 52
  let mag : ℚ :=
    if e = 0 then (m : ℚ) / 2 ^ 1074
    else if e = 2047 then 0
    else ((2 ^ 52 + m : Nat) : ℚ) * 2 ^ e / 2 ^ 1075
  if s = 1 then -mag else mag

/-- `read_float`: body must be exactly 4 or 8 bytes. -/
def readFloat (size : Nat) (r : Reader) : PResult (ℚ × Reader) :=
  if size = 4 then
    match readBytes 4 r with
    | none => .err .ioError
    | some (bs, r') => .ok (f32ToRat (beVal bs), r')
  else if size = 8 then
    match readBytes 8 r with
    | none => .err .ioError
    | some (bs, r') => .ok (f64ToRat (beVal bs), r')
  else .err .InvalidFloat

/-- `read_bin`: exactly `size` opaque bytes. -/
def readBin (size : Nat) (r : Reader) : PResult (List Nat × Reader) :=
  match readBytes size r with
  | none => .err .ioError
  | some (bs, r') => .ok (bs, r')

/-- Whether a byte is a UTF-8 continuation byte. -/
def isCont (b : Nat) : Bool := 0x80 ≤ b && b ≤ 0xBF

/-- UTF-8 validity exactly as Rust's `String::from_utf8` checks it
(rejecting overlong forms, surrogates and values above U+10FFFF). -/
def utf8Valid : List Nat → Bool
  | [] => true
  | b :: rest =>
    if b ≤ 0x7F then utf8Valid rest
    else if 0xC2 ≤ b && b ≤ 0xDF then
      match rest with
      | c :: r => isCont c && utf8Valid r
      | [] => false
    else if b = 0xE0 then
      match rest with
      | c :: d :: r => (0xA0 ≤ c && c ≤ 0xBF) && isCont d && utf8Valid r
      | _ => false
    else if (0xE1 ≤ b && b ≤ 0xEC) || b = 0xEE || b = 0xEF then
      match rest with
      | c :: d :: r => isCont c && isCont d && utf8Valid r
      | _ => false
    else if b = 0xED then
      match rest with
      | c :: d :: r => (0x80 ≤ c && c ≤ 0x9F) && isCont d && utf8Valid r
      | _ => false
    else if b = 0xF0 then
      match rest with
      | c :: d :: e :: r => (0x90 ≤ c && c ≤ 0xBF) && isCont d && isCont e && utf8Valid r
      | _ => false
    else if 0xF1 ≤ b && b ≤ 0xF3 then
      match rest with
      | c :: d :: e :: r => isCont c && isCont d && isCont e && utf8Valid r
      | _ => false
    else if b = 0xF4 then
      match rest with
      | c :: d :: e :: r => (0x80 ≤ c && c ≤ 0x8F) && isCont d && isCont e && utf8Valid r
      | _ => false
    else false

/-- `read_string` / `read_utf8` (both validate UTF-8 in the source; a Rust
`String` is modelled by its byte list). -/
def readStr (size : Nat) (r : Reader) : PResult (List Nat × Reader) :=
  match readBin size r with
  | .ok (bs, r') => if utf8Valid bs then .ok (bs, r') else .err .utf8Error
  | .err e => .err e
  | .panicked => .panicked
  | .outOfFuel => .outOfFuel

/-- `read_date`: exactly 8 bytes; the value is kept as the signed
nanosecond offset from the 2001-01-01T00:00:00 UTC epoch (the `chrono`
absolute instant is determined by this offset). -/
def readDate (size : Nat) (r : Reader) : PResult (Int × Reader) :=
  if size = 8 then readInt 8 r else .err .InvalidDate

/-! ## The element tree (src/ebml.rs, `Element` / `ElementType`) -/

mutual

/-- A parsed EBML element: ID, total size (header + body), body value. -/
inductive Element : Type where
  | mk : Nat → Nat → ElementType → Element

/-- The typed body of an element.  `Str` is the source's `String` variant
(renamed to avoid shadowing Lean's `String`); both string variants are
modelled by their UTF-8 byte lists, floats by exact rationals, dates by
the signed nanosecond offset from the 2001 epoch. -/
inductive ElementType : Type where
  | Master : List Element → ElementType
  | Int : ℤ → ElementType
  | UInt : Nat → ElementType
  | Str : List Nat → ElementType
  | UTF8 : List Nat → ElementType
  | Binary : List Nat → ElementType
  | Float : ℚ → ElementType
  | Date : ℤ → ElementType

end

def Element.id : Element → Nat
  | .mk i _ _ => i

def Element.size : Element → Nat
  | .mk _ s _ => s

def Element.val : Element → ElementType
  | .mk _ _ v => v

/-- The non-master arms of `Element::parse_body`: dispatch on the ID's
declared kind, unknown IDs falling back to Binary. -/
def parseLeafVal (id size : Nat) (r : Reader) : PResult (ElementType × Reader) :=
  if IDS_INT.contains id then
    match readInt size r with
    | .ok (v, r') => .ok (.Int v, r')
    | .err e => .err e
    | .panicked => .panicked
    | .outOfFuel => .outOfFuel
  else if IDS_UINT.contains id then
    match readUint size r with
    | .ok (v, r') => .ok (.UInt v, r')
    | .err e => .err e
    | .panicked => .panicked
    | .outOfFuel => .outOfFuel
  else if IDS_STRING.contains id then
    match readStr size r with
    | .ok (v, r') => .ok (.Str v, r')
    | .err e => .err e
    | .panicked => .panicked
    | .outOfFuel => .outOfFuel
  else if IDS_UTF8.contains id then
    match readStr size r with
    | .ok (v, r') => .ok (.UTF8 v, r')
    | .err e => .err e
    | .panicked => .panicked
    | .outOfFuel => .outOfFuel
  else if IDS_BINARY.contains id then
    match readBin size r with
    | .ok (v, r') => .ok (.Binary v, r')
    | .err e => .err e
    | .panicked => .panicked
    | .outOfFuel => .outOfFuel
  else if IDS_FLOAT.contains id then
    match readFloat size r with
    | .ok (v, r') => .ok (.Float v, r')
    | .err e => .err e
    | .panicked => .panicked
    | .outOfFuel => .outOfFuel
  else if id = 0x4461 then
    match readDate size r with
    | .ok (v, r') => .ok (.Date v, r')
    | .err e => .err e
    | .panicked => .panicked
    | .outOfFuel => .outOfFuel
  else
    match readBin size r with
    | .ok (v, r') => .ok (.Binary v, r')
    | .err e => .err e
    | .panicked => .panicked
    | .outOfFuel => .outOfFuel

/-- `Element::parse_master` of src/ebml.rs, with the mutually recursive
`Element::parse` / `parse_body` inlined (the `IDS_MASTER` arm of
`parse_body` recurses into `parse_master`, every other arm is
`parseLeafVal`).  The loop repeatedly parses one child, aborts on
`assert!(e.size <= size)` when the child exceeds the remaining budget
(`.panicked`), and otherwise subtracts the child's total size.  `fuel`
bounds the recursion depth-plus-iterations; `fuel > remNat r` always
suffices (proved below), so the model is total and faithful. -/
def parseMasterF : Nat → Nat → Reader → PResult (List Element × Reader)
  | 0, size, r => if size = 0 then .ok ([], r) else .outOfFuel
  | fuel + 1, size, r =>
    if size = 0 then .ok ([], r)
    else
      match readElementIdSize r with
      | .err e => .err e
      | .panicked => .panicked
      | .outOfFuel => .outOfFuel
      | .ok (id, bsize, hlen, r1) =>
        let bodyRes : PResult (ElementType × Reader) :=
          if IDS_MASTER.contains id then
            match parseMasterF fuel bsize r1 with
            | .ok (children, r2) => .ok (.Master children, r2)
            | .err e => .err e
            | .panicked => .panicked
            | .outOfFuel => .outOfFuel
          else parseLeafVal id bsize r1
        match bodyRes with
        | .err e => .err e
        | .panicked => .panicked
        | .outOfFuel => .outOfFuel
        | .ok (v, r2) =>
          let esize := hlen + bsize
          if size < esize then .panicked
          else
            match parseMasterF fuel (size - esize) r2 with
            | .ok (siblings, r3) => .ok (.mk id esize v :: siblings, r3)
            | .err e => .err e
            | .panicked => .panicked
            | .outOfFuel => .outOfFuel

/-- `Element::parse_master` with self-certifying fuel (fuel-sufficiency is
`parseMasterF_fuel_sufficient` below).  src/lib.rs calls a three-argument
revision whose extra `expected_child_id` is, per the spec, a diagnostic
hint with no functional effect; it is omitted here. -/
def Element.parse_master (size : Nat) (r : Reader) : PResult (List Element × Reader) :=
  parseMasterF (remNat r + 1) size r

/-! ## src/lib.rs: typed records and their builders

Every builder is the source's fold over a master element's children,
written as `List.foldl` of a step function whose if-chain follows the
source's match arms (the arms test disjoint IDs, and within one ID the
value-kind patterns, exactly as the Rust `match`). -/

/-- Which form of language is in use (the source's `Language` enum; the
name `Language` is taken by Mathlib). -/
inductive Lang : Type where
  | ISO639 : List Nat → Lang
  | IETF : List Nat → Lang
deriving DecidableEq

/-- A tag's value. -/
inductive TagValue : Type where
  | Str : List Nat → TagValue
  | Binary : List Nat → TagValue
deriving DecidableEq

/-- The type of a given track. -/
inductive Tracktype : Type where
  | Video | Audio | Complex | Logo | Subtitle | Buttons | Control | Unknown
deriving DecidableEq

/-- `Tracktype::new`. -/
def Tracktype.new (tracktype : Nat) : Tracktype :=
  if tracktype = 0x01 then .Video
  else if tracktype = 0x02 then .Audio
  else if tracktype = 0x03 then .Complex
  else if tracktype = 0x10 then .Logo
  else if tracktype = 0x11 then .Subtitle
  else if tracktype = 0x12 then .Buttons
  else if tracktype = 0x20 then .Control
  else .Unknown

/-- Which eye is displayed first. -/
inductive EyeOrder : Type where
  | LeftFirst | RightFirst
deriving DecidableEq

/-- Which colors are used for anaglyph stereo 3D. -/
inductive StereoColors : Type where
  | CyanRed | GreenMagenta
deriving DecidableEq

/-- How a video track may be displayed in stereo mode. -/
inductive StereoMode : Type where
  | Mono : StereoMode
  | SideBySide : EyeOrder → StereoMode
  | TopBottom : EyeOrder → StereoMode
  | Checkboard : EyeOrder → StereoMode
  | RowInterleaved : EyeOrder → StereoMode
  | ColumnInterleaved : EyeOrder → StereoMode
  | Anaglyph : StereoColors → StereoMode
  | Interlaced : EyeOrder → StereoMode
deriving DecidableEq

/-- A video track's specifications. -/
structure Video where
  pixel_width : Nat
  pixel_height : Nat
  display_width : Option Nat
  display_height : Option Nat
  interlaced : Option Bool
  stereo : Option StereoMode
  gamma : Option ℚ
deriving DecidableEq

def Video.new : Video :=
  { pixel_width := 0, pixel_height := 0, display_width := none,
    display_height := none, interlaced := none, stereo := none, gamma := none }

/-- One match arm application of `Video::build`. -/
def videoStep (v : Video) (e : Element) : Video :=
  if e.id = ids.PIXELWIDTH then
    match e.val with
    | .UInt width => { v with pixel_width := width }
    | _ => v
  else if e.id = ids.PIXELHEIGHT then
    match e.val with
    | .UInt height => { v with pixel_height := height }
    | _ => v
  else if e.id = ids.DISPLAYWIDTH then
    match e.val with
    | .UInt width => { v with display_width := some width }
    | _ => v
  else if e.id = ids.DISPLAYHEIGHT then
    match e.val with
    | .UInt height => { v with display_height := some height }
    | _ => v
  else if e.id = ids.INTERLACED then
    match e.val with
    | .UInt i =>
      { v with interlaced := if i = 1 then some true else if i = 2 then some false else none }
    | _ => v
  else if e.id = ids.GAMMA then
    match e.val with
    | .Float g => { v with gamma := some g }
    | _ => v
  else if e.id = ids.STEREOMODE then
    match e.val with
    | .UInt stereo =>
      { v with stereo :=
        if stereo = 0 then some .Mono
        else if stereo = 1 then some (.SideBySide .LeftFirst)
        else if stereo = 2 then some (.TopBottom .RightFirst)
        else if stereo = 3 then some (.TopBottom .LeftFirst)
        else if stereo = 4 then some (.Checkboard .RightFirst)
        else if stereo = 5 then some (.Checkboard .LeftFirst)
        else if stereo = 6 then some (.RowInterleaved .RightFirst)
        else if stereo = 7 then some (.RowInterleaved .LeftFirst)
        else if stereo = 8 then some (.ColumnInterleaved .RightFirst)
        else if stereo = 9 then some (.ColumnInterleaved .LeftFirst)
        else if stereo = 10 then some (.Anaglyph .CyanRed)
        else if stereo = 11 then some (.SideBySide .RightFirst)
        else if stereo = 12 then some (.Anaglyph .GreenMagenta)
        else if stereo = 13 then some (.Interlaced .LeftFirst)
        else if stereo = 14 then some (.Interlaced .RightFirst)
        else none }
    | _ => v
  else v

/-- `Video::build`. -/
def Video.build (elements : List Element) : Video := elements.foldl videoStep Video.new

/-- An audio track's specifications. -/
structure Audio where
  sample_rate : ℚ
  channels : Nat
  bit_depth : Option Nat
deriving DecidableEq

def Audio.new : Audio := { sample_rate := 0, channels := 0, bit_depth := none }

/-- One match arm application of `Audio::build`. -/
def audioStep (a : Audio) (e : Element) : Audio :=
  if e.id = ids.SAMPLINGFREQUENCY then
    match e.val with
    | .Float frequency => { a with sample_rate := frequency }
    | _ => a
  else if e.id = ids.CHANNELS then
    match e.val with
    | .UInt channels => { a with channels := channels }
    | _ => a
  else if e.id = ids.BITDEPTH then
    match e.val with
    | .UInt bit_depth => { a with bit_depth := some bit_depth }
    | _ => a
  else a

/-- `Audio::build`. -/
def Audio.build (elements : List Element) : Audio := elements.foldl audioStep Audio.new

/-- The settings a track may have. -/
inductive Settings : Type where
  | NoSettings : Settings
  | Video : Video → Settings
  | Audio : Audio → Settings
deriving DecidableEq

/-- A TrackEntry record (src/lib.rs `Track`). -/
structure Track where
  number : Nat
  uid : Nat
  tracktype : Tracktype
  enabled : Bool
  default : Bool
  forced : Bool
  hearing_impaired : Option Bool
  visual_impaired : Option Bool
  text_descriptions : Option Bool
  original : Option Bool
  commentary : Option Bool
  interlaced : Bool
  default_duration : Option Nat
  name : Option (List Nat)
  language : Option Lang
  codec_id : List Nat
  codec_private : Option (List Nat)
  codec_name : Option (List Nat)
  settings : Settings
deriving DecidableEq

/-- `Track::new`. -/
def Track.new : Track :=
  { number := 0, uid := 0, tracktype := .Unknown, enabled := true,
    default := true, forced := false, hearing_impaired := none,
    visual_impaired := none, text_descriptions := none, original := none,
    commentary := none, interlaced := true, default_duration := none,
    name := none, language := none, codec_id := [], codec_private := none,
    codec_name := none, settings := .NoSettings }

/-- One match arm application of `Track::build_entry`.  The impairment and
intent flags accept either a Binary body (first byte decides; empty body
clears to absent) or a UInt body, as the source does. -/
def trackStep (t : Track) (e : Element) : Track :=
  if e.id = ids.TRACKNUMBER then
    match e.val with
    | .UInt number => { t with number := number }
    | _ => t
  else if e.id = ids.TRACKUID then
    match e.val with
    | .UInt uid => { t with uid := uid }
    | _ => t
  else if e.id = ids.TRACKTYPE then
    match e.val with
    | .UInt tracktype => { t with tracktype := Tracktype.new tracktype }
    | _ => t
  else if e.id = ids.FLAGENABLED then
    match e.val with
    | .UInt enabled => { t with enabled := enabled != 0 }
    | _ => t
  else if e.id = ids.FLAGDEFAULT then
    match e.val with
    | .UInt default => { t with default := default != 0 }
    | _ => t
  else if e.id = ids.FLAGFORCED then
    match e.val with
    | .UInt forced => { t with forced := forced != 0 }
    | _ => t
  else if e.id = ids.FLAGHEARINGIMPAIRED then
    match e.val with
    | .Binary bs => { t with hearing_impaired := bs.head?.map (fun b => b != 0) }
    | .UInt u => { t with hearing_impaired := some (u != 0) }
    | _ => t
  else if e.id = ids.FLAGVISUALIMPAIRED then
    match e.val with
    | .Binary bs => { t with visual_impaired := bs.head?.map (fun b => b != 0) }
    | .UInt u => { t with visual_impaired := some (u != 0) }
    | _ => t
  else if e.id = ids.FLAGTEXTDESCRIPTIONS then
    match e.val with
    | .Binary bs => { t with text_descriptions := bs.head?.map (fun b => b != 0) }
    | .UInt u => { t with text_descriptions := some (u != 0) }
    | _ => t
  else if e.id = ids.FLAGORIGINAL then
    match e.val with
    | .Binary bs => { t with original := bs.head?.map (fun b => b != 0) }
    | .UInt u => { t with original := some (u != 0) }
    | _ => t
  else if e.id = ids.FLAGCOMMENTARY then
    match e.val with
    | .Binary bs => { t with commentary := bs.head?.map (fun b => b != 0) }
    | .UInt u => { t with commentary := some (u != 0) }
    | _ => t
  else if e.id = ids.FLAGLACING then
    match e.val with
    | .UInt lacing => { t with interlaced := lacing != 0 }
    | _ => t
  else if e.id = ids.DEFAULTDURATION then
    match e.val with
    | .UInt duration => { t with default_duration := some duration }
    | _ => t
  else if e.id = ids.NAME then
    match e.val with
    | .UTF8 name => { t with name := some name }
    | _ => t
  else if e.id = ids.LANGUAGE then
    match e.val with
    | .Str language =>
      match t.language with
      | some (.IETF _) => t
      | _ => { t with language := some (.ISO639 language) }
    | _ => t
  else if e.id = ids.LANGUAGE_IETF then
    match e.val with
    | .Str language => { t with language := some (.IETF language) }
    | _ => t
  else if e.id = ids.CODEC_ID then
    match e.val with
    | .Str codec_id => { t with codec_id := codec_id }
    | _ => t
  else if e.id = ids.CODEC_PRIVATE then
    match e.val with
    | .Binary private_data => { t with codec_private := some private_data }
    | _ => t
  else if e.id = ids.CODEC_NAME then
    match e.val with
    | .UTF8 codec_name => { t with codec_name := some codec_name }
    | _ => t
  else if e.id = ids.VIDEO then
    match e.val with
    | .Master sub_elements => { t with settings := .Video (Video.build sub_elements) }
    | _ => t
  else if e.id = ids.AUDIO then
    match e.val with
    | .Master sub_elements => { t with settings := .Audio (Audio.build sub_elements) }
    | _ => t
  else t

/-- `Track::build_entry`. -/
def Track.build_entry (elements : List Element) : Track := elements.foldl trackStep Track.new

/-- `<Track as Parseable>::parse`: every TrackEntry master child becomes a
`Track`. -/
def Track.parse (size : Nat) (r : Reader) : PResult (List Track × Reader) :=
  match Element.parse_master size r with
  | .ok (elements, r') =>
    .ok (elements.filterMap (fun e =>
      if e.id = ids.TRACKENTRY then
        match e.val with
        | .Master sub_elements => some (Track.build_entry sub_elements)
        | _ => none
      else none), r')
  | .err e => .err e
  | .panicked => .panicked
  | .outOfFuel => .outOfFuel

/-- The Info record (src/lib.rs `Info`). -/
structure Info where
  uid : Option (List Nat)
  prev_uid : Option (List Nat)
  next_uid : Option (List Nat)
  family_uids : List (List Nat)
  title : Option (List Nat)
  duration : Option Nat
  date_utc : Option ℤ
  muxing_app : List Nat
  writing_app : List Nat
deriving DecidableEq

/-- `Info::new`. -/
def Info.new : Info :=
  { uid := none, prev_uid := none, next_uid := none, family_uids := [],
    title := none, duration := none, date_utc := none,
    muxing_app := [], writing_app := [] }

/-- Bit length of a natural number, by fuel (the number itself is enough
fuel, since each step halves): bitLen 0 = 0, bitLen n = ⌊log2 n⌋ + 1 for
n > 0. -/
def bitLenAux : Nat → Nat → Nat
  | 0, _ => 0
  | fuel + 1, n => if n = 0 then 0 else bitLenAux fuel (n / 2) + 1

def bitLen (n : Nat) : Nat := bitLenAux n n

/-- ⌊log2 q⌋ of a positive rational q = n/d: bitLen n - bitLen d is either
the answer or one too large, settled by comparing q with 2 ^ that guess
(cross-multiplied, so everything stays in Nat). -/
def qLog2 (q : ℚ) : ℤ :=
  let n := q.num.toNat
  let d := q.den
  let e : ℤ := (bitLen n : ℤ) - (bitLen d : ℤ)
  if 0 ≤ e then
    if 2 ^ e.toNat * d ≤ n then e else e - 1
  else
    if d ≤ 2 ^ (-e).toNat * n then e else e - 1

/-- Round a rational to an integer, to nearest, ties to even. -/
def rneInt (q : ℚ) : ℤ :=
  let f := Rat.floor q
  if q - (f : ℚ) < 1 / 2 then f
  else if (1 : ℚ) / 2 < q - (f : ℚ) then f + 1
  else if f % 2 = 0 then f else f + 1

/-- 2^e as a rational, for an integer e (computed with `Nat.pow`). -/
def qPow2 (e : ℤ) : ℚ :=
  if 0 ≤ e then ((2 ^ e.toNat : ℕ) : ℚ) else 1 / ((2 ^ (-e).toNat : ℕ) : ℚ)

/-- IEEE-754 binary64 rounding (round to nearest, ties to even) of an
exact rational: the result every f64 arithmetic operation — and the
`u64 as f64` conversion — produces from the exact value.  The value is
snapped to the 53-bit-significand grid of its binade (with the fixed
subnormal grid 2^(-1074) below 2^(-1022)); a magnitude that rounds to
2^1024 or beyond overflows to infinity, represented here by ±2^1024,
which the later saturating `as u64` cast treats exactly as Rust treats
±infinity (u64::MAX and 0). -/
def f64Round (q : ℚ) : ℚ :=
  if q = 0 then 0
  else
    let a : ℚ := if q < 0 then -q else q
    let e : ℤ := max (qLog2 a) (-1022)
    let ulp : ℚ := qPow2 (e - 52)
    let r : ℚ := (rneInt (a / ulp) : ℚ) * ulp
    let r2 : ℚ := if qPow2 1024 ≤ r then qPow2 1024 else r
    if q < 0 then -r2 else r2

/-- Rust's `as u64` cast of an f64: truncation toward zero, saturating at
the `u64` range (negative values and -infinity to 0, +infinity — here
2^1024 — and anything above u64::MAX to u64::MAX). -/
def ratToU64 (q : ℚ) : Nat :=
  if q < 0 then 0 else min (Rat.floor q).toNat (2 ^ 64 - 1)

/-- One match arm application of the fold in `Info::parse`; the state is
(info so far, timecode_scale so far, raw Duration float so far). -/
def infoStep (s : Info × Nat × Option ℚ) (e : Element) : Info × Nat × Option ℚ :=
  if e.id = ids.SEGMENTUID then
    match e.val with
    | .Binary uid => ({ s.1 with uid := some uid }, s.2)
    | _ => s
  else if e.id = ids.PREVUID then
    match e.val with
    | .Binary uid => ({ s.1 with prev_uid := some uid }, s.2)
    | _ => s
  else if e.id = ids.NEXTUID then
    match e.val with
    | .Binary uid => ({ s.1 with next_uid := some uid }, s.2)
    | _ => s
  else if e.id = ids.SEGMENTFAMILY then
    match e.val with
    | .Binary uid => ({ s.1 with family_uids := s.1.family_uids ++ [uid] }, s.2)
    | _ => s
  else if e.id = ids.TITLE then
    match e.val with
    | .UTF8 title => ({ s.1 with title := some title }, s.2)
    | _ => s
  else if e.id = ids.TIMECODESCALE then
    match e.val with
    | .UInt scale => (s.1, scale, s.2.2)
    | _ => s
  else if e.id = ids.DURATION then
    match e.val with
    | .Float d => (s.1, s.2.1, some d)
    | _ => s
  else if e.id = ids.DATEUTC then
    match e.val with
    | .Date date => ({ s.1 with date_utc := some date }, s.2)
    | _ => s
  else if e.id = ids.MUXINGAPP then
    match e.val with
    | .UTF8 app => ({ s.1 with muxing_app := app }, s.2)
    | _ => s
  else if e.id = ids.WRITINGAPP then
    match e.val with
    | .UTF8 app => ({ s.1 with writing_app := app }, s.2)
    | _ => s
  else s

/-- The fold of `Info::parse` over already-parsed children: fold all
children from (`Info::new`, scale 1000000, no raw duration), then — only
after the fold — derive the exposed duration as the source's
`(d * timecode_scale as f64) as u64`: the u64 scale is first rounded to
f64 (`f64Round`), the f64 product is the rounding of the exact product,
and the cast truncates toward zero, saturating. -/
def Info.build (elements : List Element) : Info :=
  let s := elements.foldl infoStep (Info.new, 1000000, none)
  match s.2.2 with
  | some d =>
    { s.1 with duration := some (ratToU64 (f64Round (d * f64Round (s.2.1 : ℚ)))) }
  | none => s.1

/-- `<Info as Parseable>::parse`. -/
def Info.parse (size : Nat) (r : Reader) : PResult (Info × Reader) :=
  match Element.parse_master size r with
  | .ok (elements, r') => .ok (Info.build elements, r')
  | .err e => .err e
  | .panicked => .panicked
  | .outOfFuel => .outOfFuel

/-- An attached file. -/
structure Attachment where
  description : Option (List Nat)
  name : List Nat
  mime_type : List Nat
  data : List Nat
deriving DecidableEq

def Attachment.new : Attachment :=
  { description := none, name := [], mime_type := [], data := [] }

/-- One match arm application of `Attachment::build_entry`. -/
def attachmentStep (a : Attachment) (e : Element) : Attachment :=
  if e.id = ids.FILEDESCRIPTION then
    match e.val with
    | .UTF8 description => { a with description := some description }
    | _ => a
  else if e.id = ids.FILENAME then
    match e.val with
    | .UTF8 filename => { a with name := filename }
    | _ => a
  else if e.id = ids.FILEMIMETYPE then
    match e.val with
    | .Str mime_type => { a with mime_type := mime_type }
    | _ => a
  else if e.id = ids.FILEDATA then
    match e.val with
    | .Binary data => { a with data := data }
    | _ => a
  else a

/-- `Attachment::build_entry`. -/
def Attachment.build_entry (elements : List Element) : Attachment :=
  elements.foldl attachmentStep Attachment.new

/-- `<Attachment as Parseable>::parse`. -/
def Attachment.parse (size : Nat) (r : Reader) : PResult (List Attachment × Reader) :=
  match Element.parse_master size r with
  | .ok (elements, r') =>
    .ok (elements.filterMap (fun e =>
      if e.id = ids.ATTACHEDFILE then
        match e.val with
        | .Master sub_elements => some (Attachment.build_entry sub_elements)
        | _ => none
      else none), r')
  | .err e => .err e
  | .panicked => .panicked
  | .outOfFuel => .outOfFuel

/-- The display string for a chapter point entry. -/
structure ChapterDisplay where
  string : List Nat
  language : Lang
deriving DecidableEq

def ChapterDisplay.new : ChapterDisplay := { string := [], language := .ISO639 [] }

/-- One match arm application of `ChapterDisplay::build`. -/
def chapterDisplayStep (d : ChapterDisplay) (e : Element) : ChapterDisplay :=
  if e.id = ids.CHAPSTRING then
    match e.val with
    | .UTF8 string => { d with string := string }
    | _ => d
  else if e.id = ids.CHAPLANGUAGE then
    match e.val with
    | .Str language =>
      match d.language with
      | .IETF _ => d
      | _ => { d with language := .ISO639 language }
    | _ => d
  else if e.id = ids.CHAPLANGUAGE_IETF then
    match e.val with
    | .Str language => { d with language := .IETF language }
    | _ => d
  else d

/-- `ChapterDisplay::build`. -/
def ChapterDisplay.build (elements : List Element) : ChapterDisplay :=
  elements.foldl chapterDisplayStep ChapterDisplay.new

/-- An individual chapter point. -/
structure Chapter where
  uid : Nat
  time_start : Nat
  time_end : Option Nat
  hidden : Bool
  enabled : Bool
  segment_uid : Option (List Nat)
  segment_edition_uid : Option Nat
  display : List ChapterDisplay
deriving DecidableEq

def Chapter.new : Chapter :=
  { uid := 0, time_start := 0, time_end := none, hidden := false,
    enabled := false, segment_uid := none, segment_edition_uid := none,
    display := [] }

/-- One match arm application of `Chapter::build`. -/
def chapterStep (c : Chapter) (e : Element) : Chapter :=
  if e.id = ids.CHAPTERUID then
    match e.val with
    | .UInt uid => { c with uid := uid }
    | _ => c
  else if e.id = ids.CHAPTERTIMESTART then
    match e.val with
    | .UInt start => { c with time_start := start }
    | _ => c
  else if e.id = ids.CHAPTERTIMEEND then
    match e.val with
    | .UInt e2 => { c with time_end := some e2 }
    | _ => c
  else if e.id = ids.CHAPTERFLAGHIDDEN then
    match e.val with
    | .UInt hidden => { c with hidden := hidden != 0 }
    | _ => c
  else if e.id = ids.CHAPTERFLAGENABLED then
    match e.val with
    | .UInt enabled => { c with enabled := enabled != 0 }
    | _ => c
  else if e.id = ids.CHAPTERSEGMENTUID then
    match e.val with
    | .Binary uid => { c with segment_uid := some uid }
    | _ => c
  else if e.id = ids.CHAPTERSEGMENTEDITIONUID then
    match e.val with
    | .UInt uid => { c with segment_edition_uid := some uid }
    | _ => c
  else if e.id = ids.CHAPTERDISPLAY then
    match e.val with
    | .Master sub_elements =>
      { c with display := c.display ++ [ChapterDisplay.build sub_elements] }
    | _ => c
  else c

/-- `Chapter::build`. -/
def Chapter.build (elements : List Element) : Chapter :=
  elements.foldl chapterStep Chapter.new

/-- A complete set of chapters. -/
structure ChapterEdition where
  uid : Option Nat
  hidden : Bool
  default : Bool
  ordered : Bool
  chapters : List Chapter
deriving DecidableEq

def ChapterEdition.new : ChapterEdition :=
  { uid := none, hidden := false, default := false, ordered := false, chapters := [] }

/-- One match arm application of `ChapterEdition::build_entry`. -/
def chapterEditionStep (c : ChapterEdition) (e : Element) : ChapterEdition :=
  if e.id = ids.EDITIONUID then
    match e.val with
    | .UInt uid => { c with uid := some uid }
    | _ => c
  else if e.id = ids.EDITIONFLAGHIDDEN then
    match e.val with
    | .UInt hidden => { c with hidden := hidden != 0 }
    | _ => c
  else if e.id = ids.EDITIONFLAGDEFAULT then
    match e.val with
    | .UInt default => { c with default := default != 0 }
    | _ => c
  else if e.id = ids.EDITIONFLAGORDERED then
    match e.val with
    | .UInt ordered => { c with ordered := ordered != 0 }
    | _ => c
  else if e.id = ids.CHAPTERATOM then
    match e.val with
    | .Master sub_elements => { c with chapters := c.chapters ++ [Chapter.build sub_elements] }
    | _ => c
  else c

/-- `ChapterEdition::build_entry`. -/
def ChapterEdition.build_entry (elements : List Element) : ChapterEdition :=
  elements.foldl chapterEditionStep ChapterEdition.new

/-- `<ChapterEdition as Parseable>::parse`. -/
def ChapterEdition.parse (size : Nat) (r : Reader) : PResult (List ChapterEdition × Reader) :=
  match Element.parse_master size r with
  | .ok (elements, r') =>
    .ok (elements.filterMap (fun e =>
      if e.id = ids.EDITIONENTRY then
        match e.val with
        | .Master sub_elements => some (ChapterEdition.build_entry sub_elements)
        | _ => none
      else none), r')
  | .err e => .err e
  | .panicked => .panicked
  | .outOfFuel => .outOfFuel

/-- The type of value a tag is for. -/
inductive TargetTypeValue : Type where
  | Collection | Season | Episode | Part | Chapter | Scene | Shot | Unknown
deriving DecidableEq

/-- `TargetTypeValue::from::<u64>`. -/
def TargetTypeValue.fromU64 (val : Nat) : TargetTypeValue :=
  if val = 70 then .Collection
  else if val = 60 then .Season
  else if val = 50 then .Episode
  else if val = 40 then .Part
  else if val = 30 then .Chapter
  else if val = 20 then .Scene
  else if val = 10 then .Shot
  else .Unknown

/-- Which elements a metadata tag applies to. -/
structure Target where
  target_type_value : Option TargetTypeValue
  target_type : Option (List Nat)
  track_uids : List Nat
  edition_uids : List Nat
  chapter_uids : List Nat
  attachment_uids : List Nat
deriving DecidableEq

def Target.new : Target :=
  { target_type_value := none, target_type := none, track_uids := [],
    edition_uids := [], chapter_uids := [], attachment_uids := [] }

/-- One match arm application of `Target::build_entry`. -/
def targetStep (t : Target) (e : Element) : Target :=
  if e.id = ids.TARGETTYPEVALUE then
    match e.val with
    | .UInt number => { t with target_type_value := some (TargetTypeValue.fromU64 number) }
    | _ => t
  else if e.id = ids.TARGETTYPE then
    match e.val with
    | .Str string => { t with target_type := some string }
    | _ => t
  else if e.id = ids.TAG_TRACK_UID then
    match e.val with
    | .UInt number => { t with track_uids := t.track_uids ++ [number] }
    | _ => t
  else if e.id = ids.TAG_EDITION_UID then
    match e.val with
    | .UInt number => { t with edition_uids := t.edition_uids ++ [number] }
    | _ => t
  else if e.id = ids.TAG_CHAPTER_UID then
    match e.val with
    | .UInt number => { t with chapter_uids := t.chapter_uids ++ [number] }
    | _ => t
  else if e.id = ids.TAG_ATTACHMENT_UID then
    match e.val with
    | .UInt number => { t with attachment_uids := t.attachment_uids ++ [number] }
    | _ => t
  else t

/-- `Target::build_entry`. -/
def Target.build_entry (elements : List Element) : Target :=
  elements.foldl targetStep Target.new

/-- General information about a tag's target. -/
structure SimpleTag where
  name : List Nat
  language : Option Lang
  default : Bool
  value : Option TagValue
deriving DecidableEq

def SimpleTag.new : SimpleTag :=
  { name := [], language := none, default := false, value := none }

/-- One match arm application of `SimpleTag::build_entry`. -/
def simpleTagStep (t : SimpleTag) (e : Element) : SimpleTag :=
  if e.id = ids.TAGNAME then
    match e.val with
    | .UTF8 string => { t with name := string }
    | _ => t
  else if e.id = ids.TAGLANGUAGE then
    match e.val with
    | .Str string =>
      match t.language with
      | some (.IETF _) => t
      | _ => { t with language := some (.ISO639 string) }
    | _ => t
  else if e.id = ids.TAGLANGUAGE_IETF then
    match e.val with
    | .Str string => { t with language := some (.IETF string) }
    | _ => t
  else if e.id = ids.TAGDEFAULT then
    match e.val with
    | .UInt default => { t with default := default != 0 }
    | _ => t
  else if e.id = ids.TAGSTRING then
    match e.val with
    | .UTF8 string => { t with value := some (.Str string) }
    | _ => t
  else if e.id = ids.TAGBINARY then
    match e.val with
    | .Binary binary => { t with value := some (.Binary binary) }
    | _ => t
  else t

/-- `SimpleTag::build_entry`. -/
def SimpleTag.build_entry (elements : List Element) : SimpleTag :=
  elements.foldl simpleTagStep SimpleTag.new

/-- An attached tag. -/
structure Tag where
  targets : Option Target
  simple : List SimpleTag
deriving DecidableEq

def Tag.new : Tag := { targets := none, simple := [] }

/-- One match arm application of `Tag::build_entry`. -/
def tagStep (t : Tag) (e : Element) : Tag :=
  if e.id = ids.TARGETS then
    match e.val with
    | .Master sub_elements => { t with targets := some (Target.build_entry sub_elements) }
    | _ => t
  else if e.id = ids.SIMPLETAG then
    match e.val with
    | .Master sub_elements => { t with simple := t.simple ++ [SimpleTag.build_entry sub_elements] }
    | _ => t
  else t

/-- `Tag::build_entry`. -/
def Tag.build_entry (elements : List Element) : Tag :=
  elements.foldl tagStep Tag.new

/-- `<Tag as Parseable>::parse`. -/
def Tag.parse (size : Nat) (r : Reader) : PResult (List Tag × Reader) :=
  match Element.parse_master size r with
  | .ok (elements, r') =>
    .ok (elements.filterMap (fun e =>
      if e.id = ids.TAG then
        match e.val with
        | .Master sub_elements => some (Tag.build_entry sub_elements)
        | _ => none
      else none), r')
  | .err e => .err e
  | .panicked => .panicked
  | .outOfFuel => .outOfFuel

/-! ## Seektable (src/lib.rs `Seek` / `Seektable`)

The source's `BTreeMap<u32, u64>` is modelled by an association list with
one entry per key. -/

/-- `BTreeMap::get`. -/
def mapGet : List (Nat × Nat) → Nat → Option Nat
  | [], _ => none
  | (k, v) :: rest, key => if k = key then some v else mapGet rest key

/-- `BTreeMap::insert` (replacing an existing entry for the key). -/
def mapInsert : List (Nat × Nat) → Nat → Nat → List (Nat × Nat)
  | [], k, v => [(k, v)]
  | (k', v') :: rest, k, v =>
    if k' = k then (k, v) :: rest else (k', v') :: mapInsert rest k v

/-- `BTreeMap::remove`: the removed value (if any) and the remaining map. -/
def mapRemove : List (Nat × Nat) → Nat → Option Nat × List (Nat × Nat)
  | [], _ => (none, [])
  | (k', v') :: rest, k =>
    if k' = k then (some v', rest)
    else
      let o := mapRemove rest k
      (o.1, (k', v') :: o.2)

/-- One `Seek` child of a SeekHead: the target ID's raw bytes and the
position (src/lib.rs keeps the raw bytes, exposing `id()` as a fold). -/
structure Seek where
  id : List Nat
  position : Nat
deriving DecidableEq

def Seek.new : Seek := { id := [], position := 0 }

/-- `Seek::id`: fold the raw bytes into a `u32` by `(acc << 8) | byte`
(the shift wraps modulo 2^32 as in Rust release arithmetic). -/
def Seek.idVal (s : Seek) : Nat :=
  s.id.foldl (fun acc i => Nat.lor (acc * 256 % 2 ^ 32) i) 0

/-- One match arm application of `Seek::build`. -/
def seekStep (s : Seek) (e : Element) : Seek :=
  if e.id = ids.SEEKID then
    match e.val with
    | .Binary id => { s with id := id }
    | _ => s
  else if e.id = ids.SEEKPOSITION then
    match e.val with
    | .UInt position => { s with position := position }
    | _ => s
  else s

/-- `Seek::build`. -/
def Seek.build (elements : List Element) : Seek :=
  elements.foldl seekStep Seek.new

/-- The seek table: the Segment-body start offset it is relative to, and
the ID-to-position map. -/
structure Seektable where
  offset : Nat
  seek : List (Nat × Nat)
deriving DecidableEq

/-- `Seektable::new`. -/
def Seektable.new (offset : Nat) : Seektable := { offset := offset, seek := [] }

/-- `Seektable::get`: absolute offset by checked `u64` addition; an
overflowing addition is the structural error `InvalidSeekHead` (the class
the spec calls `CorruptFile`). -/
def Seektable.get (st : Seektable) (id : Nat) : PResult (Option Nat) :=
  match mapGet st.seek id with
  | some position =>
    if st.offset + position ≤ 2 ^ 64 - 1 then .ok (some (st.offset + position))
    else .err (.InvalidSeekHead id)
  | none => .ok none

/-- The per-SeekHead body of the `loop` in `Seektable::parse`: insert every
`Seek` child of the current SeekHead into the table. -/
def seektableFold (st : Seektable) (es : List Element) : Seektable :=
  es.foldl (fun acc e =>
    if e.id = ids.SEEK then
      match e.val with
      | .Master sub_elements =>
        let sk := Seek.build sub_elements
        { acc with seek := mapInsert acc.seek sk.idVal sk.position }
      | _ => acc
    else acc) st

/-- The chain-following `loop` of `Seektable::parse`: parse the current
SeekHead's children, then, while the table still holds a SeekHead entry,
remove it, seek to `segment_start + position`, require (by `assert!`) a
SeekHead header there and continue with that SeekHead.  The source's loop
has no depth limit and no visited-offset set, so it is modelled with
fuel. -/
def Seektable.parseLoopF : Nat → Seektable → Nat → Nat → Reader → PResult (Seektable × Reader)
  | 0, _, _, _, _ => .outOfFuel
  | fuel + 1, st, segment_start, size, r =>
    match Element.parse_master size r with
    | .err e => .err e
    | .panicked => .panicked
    | .outOfFuel => .outOfFuel
    | .ok (es, r1) =>
      let st1 := seektableFold st es
      match mapRemove st1.seek ids.SEEKHEAD with
      | (some next_table, seek') =>
        let r2 : Reader := ⟨r1.data, next_table + segment_start⟩
        match readElementIdSize r2 with
        | .err e => .err e
        | .panicked => .panicked
        | .outOfFuel => .outOfFuel
        | .ok (id, new_size, _, r3) =>
          if id = ids.SEEKHEAD then
            Seektable.parseLoopF fuel { st1 with seek := seek' } segment_start new_size r3
          else .panicked
      | (none, _) => .ok (st1, r1)

/-- `Seektable::parse`. -/
def Seektable.parse (fuel : Nat) (segment_start size : Nat) (r : Reader) :
    PResult (Seektable × Reader) :=
  Seektable.parseLoopF fuel (Seektable.new segment_start) segment_start size r

/-! ## The navigator (src/lib.rs `Matroska::open`) -/

/-- A Matroska file's metadata. -/
structure Matroska where
  info : Info
  tracks : List Track
  attachments : List Attachment
  chapters : List ChapterEdition
  tags : List Tag
deriving DecidableEq

/-- `Matroska::new`. -/
def Matroska.new : Matroska :=
  { info := Info.new, tracks := [], attachments := [], chapters := [], tags := [] }

/-- The leading loop of `Matroska::open`: read top-level headers, seeking
past each non-Segment element, until a Segment header is read; return the
Segment's body size with the reader at the Segment body. -/
def skipToSegmentF : Nat → Reader → PResult (Nat × Reader)
  | 0, _ => .outOfFuel
  | fuel + 1, r =>
    match readElementIdSize r with
    | .err e => .err e
    | .panicked => .panicked
    | .outOfFuel => .outOfFuel
    | .ok (id, size, _, r1) =>
      if id = ids.SEGMENT then .ok (size, r1)
      else skipToSegmentF fuel ⟨r1.data, r1.pos + size⟩

/-- The Info block of the SeekHead branch of `Matroska::open`: if the
seektable holds an Info entry, seek to it, require (by `assert_eq!`) an
Info header there, and parse it into the result. -/
def seekFetchInfo (st : Seektable) (m : Matroska) (r : Reader) : PResult (Matroska × Reader) :=
  match st.get ids.INFO with
  | .err e => .err e
  | .panicked => .panicked
  | .outOfFuel => .outOfFuel
  | .ok none => .ok (m, r)
  | .ok (some pos) =>
    match readElementIdSize ⟨r.data, pos⟩ with
    | .err e => .err e
    | .panicked => .panicked
    | .outOfFuel => .outOfFuel
    | .ok (i, s, _, r2) =>
      if i = ids.INFO then
        match Info.parse s r2 with
        | .ok (info, r3) => .ok ({ m with info := info }, r3)
        | .err e => .err e
        | .panicked => .panicked
        | .outOfFuel => .outOfFuel
      else .panicked

/-- The Tracks block of the SeekHead branch of `Matroska::open`. -/
def seekFetchTracks (st : Seektable) (m : Matroska) (r : Reader) : PResult (Matroska × Reader) :=
  match st.get ids.TRACKS with
  | .err e => .err e
  | .panicked => .panicked
  | .outOfFuel => .outOfFuel
  | .ok none => .ok (m, r)
  | .ok (some pos) =>
    match readElementIdSize ⟨r.data, pos⟩ with
    | .err e => .err e
    | .panicked => .panicked
    | .outOfFuel => .outOfFuel
    | .ok (i, s, _, r2) =>
      if i = ids.TRACKS then
        match Track.parse s r2 with
        | .ok (tracks, r3) => .ok ({ m with tracks := tracks }, r3)
        | .err e => .err e
        | .panicked => .panicked
        | .outOfFuel => .outOfFuel
      else .panicked

/-- The Attachments block of the SeekHead branch of `Matroska::open`. -/
def seekFetchAttachments (st : Seektable) (m : Matroska) (r : Reader) :
    PResult (Matroska × Reader) :=
  match st.get ids.ATTACHMENTS with
  | .err e => .err e
  | .panicked => .panicked
  | .outOfFuel => .outOfFuel
  | .ok none => .ok (m, r)
  | .ok (some pos) =>
    match readElementIdSize ⟨r.data, pos⟩ with
    | .err e => .err e
    | .panicked => .panicked
    | .outOfFuel => .outOfFuel
    | .ok (i, s, _, r2) =>
      if i = ids.ATTACHMENTS then
        match Attachment.parse s r2 with
        | .ok (attachments, r3) => .ok ({ m with attachments := attachments }, r3)
        | .err e => .err e
        | .panicked => .panicked
        | .outOfFuel => .outOfFuel
      else .panicked

/-- The Chapters block of the SeekHead branch of `Matroska::open`. -/
def seekFetchChapters (st : Seektable) (m : Matroska) (r : Reader) :
    PResult (Matroska × Reader) :=
  match st.get ids.CHAPTERS with
  | .err e => .err e
  | .panicked => .panicked
  | .outOfFuel => .outOfFuel
  | .ok none => .ok (m, r)
  | .ok (some pos) =>
    match readElementIdSize ⟨r.data, pos⟩ with
    | .err e => .err e
    | .panicked => .panicked
    | .outOfFuel => .outOfFuel
    | .ok (i, s, _, r2) =>
      if i = ids.CHAPTERS then
        match ChapterEdition.parse s r2 with
        | .ok (chapters, r3) => .ok ({ m with chapters := chapters }, r3)
        | .err e => .err e
        | .panicked => .panicked
        | .outOfFuel => .outOfFuel
      else .panicked

/-- The Tags block of the SeekHead branch of `Matroska::open`. -/
def seekFetchTags (st : Seektable) (m : Matroska) (r : Reader) : PResult (Matroska × Reader) :=
  match st.get ids.TAGS with
  | .err e => .err e
  | .panicked => .panicked
  | .outOfFuel => .outOfFuel
  | .ok none => .ok (m, r)
  | .ok (some pos) =>
    match readElementIdSize ⟨r.data, pos⟩ with
    | .err e => .err e
    | .panicked => .panicked
    | .outOfFuel => .outOfFuel
    | .ok (i, s, _, r2) =>
      if i = ids.TAGS then
        match Tag.parse s r2 with
        | .ok (tags, r3) => .ok ({ m with tags := tags }, r3)
        | .err e => .err e
        | .panicked => .panicked
        | .outOfFuel => .outOfFuel
      else .panicked

/-- The whole SeekHead branch of `Matroska::open` after the Seektable is
parsed: fetch the five sections named by the table, in the source's
order, and return the assembled result (the `return Ok(matroska)`). -/
def seekAssembleF (st : Seektable) (m : Matroska) (r : Reader) : PResult Matroska :=
  match seekFetchInfo st m r with
  | .err e => .err e
  | .panicked => .panicked
  | .outOfFuel => .outOfFuel
  | .ok (m1, r1) =>
    match seekFetchTracks st m1 r1 with
    | .err e => .err e
    | .panicked => .panicked
    | .outOfFuel => .outOfFuel
    | .ok (m2, r2) =>
      match seekFetchAttachments st m2 r2 with
      | .err e => .err e
      | .panicked => .panicked
      | .outOfFuel => .outOfFuel
      | .ok (m3, r3) =>
        match seekFetchChapters st m3 r3 with
        | .err e => .err e
        | .panicked => .panicked
        | .outOfFuel => .outOfFuel
        | .ok (m4, r4) =>
          match seekFetchTags st m4 r4 with
          | .err e => .err e
          | .panicked => .panicked
          | .outOfFuel => .outOfFuel
          | .ok (m5, _) => .ok m5

/-- The `ids::SEEKHEAD` arm of the child loop of `Matroska::open`: parse
the Seektable (chain included) and assemble the result from it, returning
immediately. -/
def seekHeadBranch (fuel : Nat) (segment_start size1 : Nat) (m : Matroska) (r1 : Reader) :
    PResult Matroska :=
  match Seektable.parse fuel segment_start size1 r1 with
  | .err e => .err e
  | .panicked => .panicked
  | .outOfFuel => .outOfFuel
  | .ok (st, r2) => seekAssembleF st m r2

/-- The Segment-children loop of `Matroska::open`.  A SeekHead child ends
the loop through `seekHeadBranch`; a recognized section is parsed in
place; anything else is skipped by seeking past its body.  The loop then
runs `size_0 -= len; size_0 -= size_1` — two plain `u64` subtractions,
modelled (as in an overflow-checked build) as `.panicked` when the
subtrahend exceeds the remaining budget; in a release build the
subtraction would wrap instead.  (The skip arm's `seek(Current(size_1 as
i64))` is modelled as a forward seek; the `i64` cast's wrap for sizes ≥
2^63 is not modelled — no theorem exercises it.) -/
def openLoopF : Nat → Matroska → Nat → Nat → Reader → PResult Matroska
  | 0, _, _, _, _ => .outOfFuel
  | fuel + 1, m, segment_start, size0, r =>
    if size0 = 0 then .ok m
    else
      match readElementIdSize r with
      | .err e => .err e
      | .panicked => .panicked
      | .outOfFuel => .outOfFuel
      | .ok (id1, size1, len, r1) =>
        if id1 = ids.SEEKHEAD then seekHeadBranch fuel segment_start size1 m r1
        else
          let afterSec : PResult (Matroska × Reader) :=
            if id1 = ids.INFO then
              match Info.parse size1 r1 with
              | .ok (info, r2) => .ok ({ m with info := info }, r2)
              | .err e => .err e
              | .panicked => .panicked
              | .outOfFuel => .outOfFuel
            else if id1 = ids.TRACKS then
              match Track.parse size1 r1 with
              | .ok (tracks, r2) => .ok ({ m with tracks := tracks }, r2)
              | .err e => .err e
              | .panicked => .panicked
              | .outOfFuel => .outOfFuel
            else if id1 = ids.ATTACHMENTS then
              match Attachment.parse size1 r1 with
              | .ok (attachments, r2) => .ok ({ m with attachments := attachments }, r2)
              | .err e => .err e
              | .panicked => .panicked
              | .outOfFuel => .outOfFuel
            else if id1 = ids.CHAPTERS then
              match ChapterEdition.parse size1 r1 with
              | .ok (chapters, r2) => .ok ({ m with chapters := chapters }, r2)
              | .err e => .err e
              | .panicked => .panicked
              | .outOfFuel => .outOfFuel
            else if id1 = ids.TAGS then
              match Tag.parse size1 r1 with
              | .ok (tags, r2) => .ok ({ m with tags := tags }, r2)
              | .err e => .err e
              | .panicked => .panicked
              | .outOfFuel => .outOfFuel
            else .ok (m, ⟨r1.data, r1.pos + size1⟩)
          match afterSec with
          | .err e => .err e
          | .panicked => .panicked
          | .outOfFuel => .outOfFuel
          | .ok (m', r2) =>
            if size0 < len then .panicked
            else if size0 - len < size1 then .panicked
            else openLoopF fuel m' segment_start (size0 - len - size1) r2

/-- `Matroska::open`: find the Segment, then run the children loop. -/
def Matroska.openF (fuel : Nat) (r : Reader) : PResult Matroska :=
  match skipToSegmentF fuel r with
  | .err e => .err e
  | .panicked => .panicked
  | .outOfFuel => .outOfFuel
  | .ok (size0, r1) => openLoopF fuel Matroska.new r1.pos size0 r1

/-! ## Concrete byte files used by the theorems -/

/-- A self-referencing SeekHead: a 19-byte SeekHead element at offset 0
whose single Seek entry names SeekHead itself (SeekID = 11 4D 9B 74) at
SeekPosition 0.  With segment_start 0, following the chain re-reads this
same SeekHead forever. -/
def cycBytes : List Nat :=
  [0x11, 0x4D, 0x9B, 0x74, 0x8E, 0x4D, 0xBB, 0x8B, 0x53, 0xAB, 0x84,
   0x11, 0x4D, 0x9B, 0x74, 0x53, 0xAC, 0x81, 0x00]

/-- A Segment whose declared body size (1) is smaller than its first
child's total size (3: the 3-byte Void element EC 81 00), so the child
loop's budget subtraction underflows. -/
def undersizedSegmentBytes : List Nat :=
  [0x18, 0x53, 0x80, 0x67, 0x81, 0xEC, 0x81, 0x00]

/-- A Segment whose children are: a SeekHead pointing only at the Info at
offset 33 (MuxingApp "A"), then a sibling Info (MuxingApp "B") directly
after the SeekHead, then the pointed-to Info.  A navigator that obeys the
SeekHead returns "A"; one that kept scanning siblings would see "B". -/
def seekheadWinsBytes : List Nat :=
  [0x18, 0x53, 0x80, 0x67, 0xA5,
   0x11, 0x4D, 0x9B, 0x74, 0x8E, 0x4D, 0xBB, 0x8B, 0x53, 0xAB, 0x84,
   0x15, 0x49, 0xA9, 0x66, 0x53, 0xAC, 0x81, 0x1C,
   0x15, 0x49, 0xA9, 0x66, 0x84, 0x4D, 0x80, 0x81, 0x42,
   0x15, 0x49, 0xA9, 0x66, 0x84, 0x4D, 0x80, 0x81, 0x41]

/-! ## Statement-side helper functions

These name, in the spec's words, the data a claim talks about: the final
Duration / TimecodeScale / TrackNumber / language child among a master's
children (later children overwrite earlier ones), and the language value
the precedence rule prescribes.  Theorems compare the source's folds
against them. -/

/-- The TrackNumber carried by one child, if any. -/
def numberOfElem (e : Element) : Option Nat :=
  if e.id = ids.TRACKNUMBER then
    match e.val with
    | .UInt n => some n
    | _ => none
  else none

/-- The language string carried by one child with the given language ID,
if any (only a String-typed body counts, as in the source's match). -/
def langStrOfElem (langId : Nat) (e : Element) : Option (List Nat) :=
  if e.id = langId then
    match e.val with
    | .Str s => some s
    | _ => none
  else none

/-- The last TrackNumber among the children. -/
def lastTrackNumber : List Element → Option Nat
  | [] => none
  | e :: es =>
    match lastTrackNumber es with
    | some n => some n
    | none => numberOfElem e

/-- The last language string with the given ID among the children. -/
def lastLangStr (langId : Nat) : List Element → Option (List Nat)
  | [] => none
  | e :: es =>
    match lastLangStr langId es with
    | some s => some s
    | none => langStrOfElem langId e

/-- The language value after folding children whose last ISO-639 string is
`iso` and last IETF string is `ietf` over a state whose language was
`cur`: an IETF child always wins; an ISO-639 child is taken only while no
IETF value is held. -/
def langAfter (cur : Option Lang) (iso ietf : Option (List Nat)) : Option Lang :=
  match ietf with
  | some s => some (.IETF s)
  | none =>
    match iso with
    | some s =>
      match cur with
      | some (.IETF u) => some (.IETF u)
      | _ => some (.ISO639 s)
    | none => cur

/-! ## Reader-consumption facts

Every successful header read consumes its header length (at least two
bytes: one ID byte and one size byte), and every successful body read
moves the cursor forward over the same data.  These facts drive the
fuel-sufficiency (termination) theorem for `parse_master`. -/

theorem read1_spec {r : Reader} {b : Nat} {r' : Reader} (h : read1 r = some (b, r')) :
    r'.data = r.data ∧ r'.pos = r.pos + 1 ∧ r.pos < r.data.length := by
  unfold read1 at h
  cases hg : r.data.get? r.pos with
  | none => rw [hg] at h; cases h
  | some b' =>
    rw [hg] at h
    simp only [Option.some.injEq, Prod.mk.injEq] at h
    obtain ⟨rfl, rfl⟩ := h
    exact ⟨rfl, rfl, (List.get?_eq_some.mp hg).1⟩

theorem readBytes_spec {n : Nat} {r : Reader} {bs : List Nat} {r' : Reader}
    (h : readBytes n r = some (bs, r')) :
    r'.data = r.data ∧ r'.pos = r.pos + n ∧ r.pos + n ≤ r.data.length := by
  unfold readBytes at h
  split at h
  · simp only [Option.some.injEq, Prod.mk.injEq] at h
    obtain ⟨-, rfl⟩ := h
    exact ⟨rfl, rfl, by assumption⟩
  · cases h


theorem readElementId_spec {r : Reader} {v l : Nat} {r' : Reader}
    (h : readElementId r = .ok (v, l, r')) :
    r'.data = r.data ∧ 1 ≤ l ∧ r'.pos = r.pos + l ∧ r.pos + l ≤ r.data.length := by
  unfold readElementId at h
  split at h
  · cases h
  · rename_i b r1 h1
    obtain ⟨hd1, hp1, hlt1⟩ := read1_spec h1
    split at h
    · simp only [PResult.ok.injEq, Prod.mk.injEq] at h
      obtain ⟨-, rfl, rfl⟩ := h
      exact ⟨hd1, by omega, by omega, by omega⟩
    · split at h
      · split at h
        · cases h
        · rename_i cs r2 h2
          obtain ⟨hd2, hp2, hle2⟩ := readBytes_spec h2
          rw [hd1] at hle2
          simp only [PResult.ok.injEq, Prod.mk.injEq] at h
          obtain ⟨-, rfl, rfl⟩ := h
          exact ⟨hd2.trans hd1, by omega, by omega, by omega⟩
      · split at h
        · split at h
          · cases h
          · rename_i cs r2 h2
            obtain ⟨hd2, hp2, hle2⟩ := readBytes_spec h2
            rw [hd1] at hle2
            simp only [PResult.ok.injEq, Prod.mk.injEq] at h
            obtain ⟨-, rfl, rfl⟩ := h
            exact ⟨hd2.trans hd1, by omega, by omega, by omega⟩
        · split at h
          · split at h
            · cases h
            · rename_i cs r2 h2
              obtain ⟨hd2, hp2, hle2⟩ := readBytes_spec h2
              rw [hd1] at hle2
              simp only [PResult.ok.injEq, Prod.mk.injEq] at h
              obtain ⟨-, rfl, rfl⟩ := h
              exact ⟨hd2.trans hd1, by omega, by omega, by omega⟩
          · split at h
            · cases h
            · split at h
              · cases h
              · cases h

theorem readElementSize_spec {r : Reader} {v l : Nat} {r' : Reader}
    (h : readElementSize r = .ok (v, l, r')) :
    r'.data = r.data ∧ 1 ≤ l ∧ r'.pos = r.pos + l ∧ r.pos + l ≤ r.data.length := by
  unfold readElementSize at h
  split at h
  · cases h
  · rename_i b r1 h1
    obtain ⟨hd1, hp1, hlt1⟩ := read1_spec h1
    split at h
    · simp only [PResult.ok.injEq, Prod.mk.injEq] at h
      obtain ⟨-, rfl, rfl⟩ := h
      exact ⟨hd1, by omega, by omega, by omega⟩
    · split at h
      · split at h
        · cases h
        · rename_i cs r2 h2
          obtain ⟨hd2, hp2, hle2⟩ := readBytes_spec h2
          rw [hd1] at hle2
          simp only [PResult.ok.injEq, Prod.mk.injEq] at h
          obtain ⟨-, rfl, rfl⟩ := h
          exact ⟨hd2.trans hd1, by omega, by omega, by omega⟩
      · split at h
        · split at h
          · cases h
          · rename_i cs r2 h2
            obtain ⟨hd2, hp2, hle2⟩ := readBytes_spec h2
            rw [hd1] at hle2
            simp only [PResult.ok.injEq, Prod.mk.injEq] at h
            obtain ⟨-, rfl, rfl⟩ := h
            exact ⟨hd2.trans hd1, by omega, by omega, by omega⟩
        · split at h
          · split at h
            · cases h
            · rename_i cs r2 h2
              obtain ⟨hd2, hp2, hle2⟩ := readBytes_spec h2
              rw [hd1] at hle2
              simp only [PResult.ok.injEq, Prod.mk.injEq] at h
              obtain ⟨-, rfl, rfl⟩ := h
              exact ⟨hd2.trans hd1, by omega, by omega, by omega⟩
          · split at h
            · split at h
              · cases h
              · rename_i cs r2 h2
                obtain ⟨hd2, hp2, hle2⟩ := readBytes_spec h2
                rw [hd1] at hle2
                simp only [PResult.ok.injEq, Prod.mk.injEq] at h
                obtain ⟨-, rfl, rfl⟩ := h
                exact ⟨hd2.trans hd1, by omega, by omega, by omega⟩
            · split at h
              · split at h
                · cases h
                · rename_i cs r2 h2
                  obtain ⟨hd2, hp2, hle2⟩ := readBytes_spec h2
                  rw [hd1] at hle2
                  simp only [PResult.ok.injEq, Prod.mk.injEq] at h
                  obtain ⟨-, rfl, rfl⟩ := h
                  exact ⟨hd2.trans hd1, by omega, by omega, by omega⟩
              · split at h
                · split at h
                  · cases h
                  · rename_i cs r2 h2
                    obtain ⟨hd2, hp2, hle2⟩ := readBytes_spec h2
                    rw [hd1] at hle2
                    simp only [PResult.ok.injEq, Prod.mk.injEq] at h
                    obtain ⟨-, rfl, rfl⟩ := h
                    exact ⟨hd2.trans hd1, by omega, by omega, by omega⟩
                · split at h
                  · split at h
                    · cases h
                    · rename_i cs r2 h2
                      obtain ⟨hd2, hp2, hle2⟩ := readBytes_spec h2
                      rw [hd1] at hle2
                      simp only [PResult.ok.injEq, Prod.mk.injEq] at h
                      obtain ⟨-, rfl, rfl⟩ := h
                      exact ⟨hd2.trans hd1, by omega, by omega, by omega⟩
                  · split at h
                    · cases h
                    · cases h

theorem readElementIdSize_spec {r : Reader} {id bsize hlen : Nat} {r' : Reader}
    (h : readElementIdSize r = .ok (id, bsize, hlen, r')) :
    r'.data = r.data ∧ 2 ≤ hlen ∧ r'.pos = r.pos + hlen ∧ r.pos + hlen ≤ r.data.length := by
  unfold readElementIdSize at h
  split at h
  · rename_i i idLen r1 h1
    obtain ⟨hd1, hl1, hp1, hle1⟩ := readElementId_spec h1
    split at h
    · rename_i s sizeLen r2 h2
      obtain ⟨hd2, hl2, hp2, hle2⟩ := readElementSize_spec h2
      rw [hd1] at hle2
      simp only [PResult.ok.injEq, Prod.mk.injEq] at h
      obtain ⟨-, -, rfl, rfl⟩ := h
      exact ⟨hd2.trans hd1, by omega, by omega, by omega⟩
    · cases h
    · cases h
    · cases h
  · cases h
  · cases h
  · cases h

theorem readBin_spec {size : Nat} {r : Reader} {bs : List Nat} {r' : Reader}
    (h : readBin size r = .ok (bs, r')) : r'.data = r.data ∧ r.pos ≤ r'.pos := by
  unfold readBin at h
  split at h
  · cases h
  · rename_i cs r2 h2
    obtain ⟨hd, hp, _⟩ := readBytes_spec h2
    simp only [PResult.ok.injEq, Prod.mk.injEq] at h
    obtain ⟨rfl, rfl⟩ := h
    exact ⟨hd, by omega⟩

theorem readInt_spec {size : Nat} {r : Reader} {v : Int} {r' : Reader}
    (h : readInt size r = .ok (v, r')) : r'.data = r.data ∧ r.pos ≤ r'.pos := by
  unfold readInt at h
  split at h
  · simp only [PResult.ok.injEq, Prod.mk.injEq] at h
    obtain ⟨-, rfl⟩ := h
    exact ⟨rfl, le_refl _⟩
  · split at h
    · split at h
      · cases h
      · rename_i bs2 r2 h2
        obtain ⟨hd, hp, _⟩ := readBytes_spec h2
        simp only [PResult.ok.injEq, Prod.mk.injEq] at h
        obtain ⟨-, rfl⟩ := h
        exact ⟨hd, by omega⟩
    · cases h

theorem readUint_spec {size : Nat} {r : Reader} {v : Nat} {r' : Reader}
    (h : readUint size r = .ok (v, r')) : r'.data = r.data ∧ r.pos ≤ r'.pos := by
  unfold readUint at h
  split at h
  · simp only [PResult.ok.injEq, Prod.mk.injEq] at h
    obtain ⟨-, rfl⟩ := h
    exact ⟨rfl, le_refl _⟩
  · split at h
    · split at h
      · cases h
      · rename_i bs2 r2 h2
        obtain ⟨hd, hp, _⟩ := readBytes_spec h2
        simp only [PResult.ok.injEq, Prod.mk.injEq] at h
        obtain ⟨-, rfl⟩ := h
        exact ⟨hd, by omega⟩
    · cases h

theorem readFloat_spec {size : Nat} {r : Reader} {v : ℚ} {r' : Reader}
    (h : readFloat size r = .ok (v, r')) : r'.data = r.data ∧ r.pos ≤ r'.pos := by
  unfold readFloat at h
  split at h
  · split at h
    · cases h
    · rename_i bs2 r2 h2
      obtain ⟨hd, hp, _⟩ := readBytes_spec h2
      simp only [PResult.ok.injEq, Prod.mk.injEq] at h
      obtain ⟨-, rfl⟩ := h
      exact ⟨hd, by omega⟩
  · split at h
    · split at h
      · cases h
      · rename_i bs2 r2 h2
        obtain ⟨hd, hp, _⟩ := readBytes_spec h2
        simp only [PResult.ok.injEq, Prod.mk.injEq] at h
        obtain ⟨-, rfl⟩ := h
        exact ⟨hd, by omega⟩
    · cases h

theorem readStr_spec {size : Nat} {r : Reader} {bs : List Nat} {r' : Reader}
    (h : readStr size r = .ok (bs, r')) : r'.data = r.data ∧ r.pos ≤ r'.pos := by
  unfold readStr at h
  split at h
  · rename_i bs2 r2 h2
    split at h
    · simp only [PResult.ok.injEq, Prod.mk.injEq] at h
      obtain ⟨rfl, rfl⟩ := h
      exact readBin_spec h2
    · cases h
  · cases h
  · cases h
  · cases h

theorem readDate_spec {size : Nat} {r : Reader} {v : Int} {r' : Reader}
    (h : readDate size r = .ok (v, r')) : r'.data = r.data ∧ r.pos ≤ r'.pos := by
  unfold readDate at h
  split at h
  · exact readInt_spec h
  · cases h

theorem parseLeafVal_spec {id size : Nat} {r : Reader} {v : ElementType} {r' : Reader}
    (h : parseLeafVal id size r = .ok (v, r')) : r'.data = r.data ∧ r.pos ≤ r'.pos := by
  unfold parseLeafVal at h
  split at h
  · split at h
    · rename_i v2 r2 h2
      simp only [PResult.ok.injEq, Prod.mk.injEq] at h
      obtain ⟨rfl, rfl⟩ := h
      exact readInt_spec h2
    · cases h
    · cases h
    · cases h
  · split at h
    · split at h
      · rename_i v2 r2 h2
        simp only [PResult.ok.injEq, Prod.mk.injEq] at h
        obtain ⟨rfl, rfl⟩ := h
        exact readUint_spec h2
      · cases h
      · cases h
      · cases h
    · split at h
      · split at h
        · rename_i v2 r2 h2
          simp only [PResult.ok.injEq, Prod.mk.injEq] at h
          obtain ⟨rfl, rfl⟩ := h
          exact readStr_spec h2
        · cases h
        · cases h
        · cases h
      · split at h
        · split at h
          · rename_i v2 r2 h2
            simp only [PResult.ok.injEq, Prod.mk.injEq] at h
            obtain ⟨rfl, rfl⟩ := h
            exact readStr_spec h2
          · cases h
          · cases h
          · cases h
        · split at h
          · split at h
            · rename_i v2 r2 h2
              simp only [PResult.ok.injEq, Prod.mk.injEq] at h
              obtain ⟨rfl, rfl⟩ := h
              exact readBin_spec h2
            · cases h
            · cases h
            · cases h
          · split at h
            · split at h
              · rename_i v2 r2 h2
                simp only [PResult.ok.injEq, Prod.mk.injEq] at h
                obtain ⟨rfl, rfl⟩ := h
                exact readFloat_spec h2
              · cases h
              · cases h
              · cases h
            · split at h
              · split at h
                · rename_i v2 r2 h2
                  simp only [PResult.ok.injEq, Prod.mk.injEq] at h
                  obtain ⟨rfl, rfl⟩ := h
                  exact readDate_spec h2
                · cases h
                · cases h
                · cases h
              · split at h
                · rename_i v2 r2 h2
                  simp only [PResult.ok.injEq, Prod.mk.injEq] at h
                  obtain ⟨rfl, rfl⟩ := h
                  exact readBin_spec h2
                · cases h
                · cases h
                · cases h

theorem parseMasterF_consume :
    ∀ fuel size : Nat, ∀ r : Reader, ∀ es : List Element, ∀ r' : Reader,
      parseMasterF fuel size r = .ok (es, r') → r'.data = r.data ∧ r.pos ≤ r'.pos := by
  intro fuel
  induction fuel with
  | zero =>
    intro size r es r' h
    unfold parseMasterF at h
    split at h
    · simp only [PResult.ok.injEq, Prod.mk.injEq] at h
      obtain ⟨-, rfl⟩ := h
      exact ⟨rfl, le_refl _⟩
    · cases h
  | succ fuel ih =>
    intro size r es r' h
    unfold parseMasterF at h
    split at h
    · simp only [PResult.ok.injEq, Prod.mk.injEq] at h
      obtain ⟨-, rfl⟩ := h
      exact ⟨rfl, le_refl _⟩
    · split at h
      · cases h
      · cases h
      · cases h
      · rename_i id bsize hlen r1 hhdr
        obtain ⟨hdh, hlh, hph, hleh⟩ := readElementIdSize_spec hhdr
        split at h
        · -- master body
          split at h
          · rename_i children r2 hchild
            obtain ⟨hd2, hp2⟩ := ih bsize r1 children r2 hchild
            dsimp only at h
            split at h
            · cases h
            · split at h
              · rename_i siblings r3 hrec
                obtain ⟨hd3, hp3⟩ := ih _ r2 siblings r3 hrec
                simp only [PResult.ok.injEq, Prod.mk.injEq] at h
                obtain ⟨-, rfl⟩ := h
                refine ⟨?_, ?_⟩
                · rw [hd3, hd2, hdh]
                · omega
              · cases h
              · cases h
              · cases h
          · cases h
          · cases h
          · cases h
        · -- leaf body
          dsimp only at h
          split at h
          · cases h
          · cases h
          · cases h
          · rename_i v r2 hleaf
            obtain ⟨hd2, hp2⟩ := parseLeafVal_spec hleaf
            split at h
            · cases h
            · split at h
              · rename_i siblings r3 hrec
                obtain ⟨hd3, hp3⟩ := ih _ r2 siblings r3 hrec
                simp only [PResult.ok.injEq, Prod.mk.injEq] at h
                obtain ⟨-, rfl⟩ := h
                refine ⟨?_, ?_⟩
                · rw [hd3, hd2, hdh]
                · omega
              · cases h
              · cases h
              · cases h

theorem readElementId_no_fuel (r : Reader) : readElementId r ≠ .outOfFuel := by
  unfold readElementId
  repeat' split
  all_goals intro h; cases h

theorem readElementSize_no_fuel (r : Reader) : readElementSize r ≠ .outOfFuel := by
  unfold readElementSize
  repeat' split
  all_goals intro h; cases h

theorem readElementIdSize_no_fuel (r : Reader) : readElementIdSize r ≠ .outOfFuel := by
  unfold readElementIdSize
  split
  · split
    · intro h; cases h
    · intro h; cases h
    · intro h; cases h
    · rename_i heq
      exact absurd heq (readElementSize_no_fuel _)
  · intro h; cases h
  · intro h; cases h
  · rename_i heq
    exact absurd heq (readElementId_no_fuel _)

theorem readInt_no_fuel (size : Nat) (r : Reader) : readInt size r ≠ .outOfFuel := by
  unfold readInt
  repeat' split
  all_goals intro h; cases h

theorem readUint_no_fuel (size : Nat) (r : Reader) : readUint size r ≠ .outOfFuel := by
  unfold readUint
  repeat' split
  all_goals intro h; cases h

theorem readFloat_no_fuel (size : Nat) (r : Reader) : readFloat size r ≠ .outOfFuel := by
  unfold readFloat
  repeat' split
  all_goals intro h; cases h

theorem readBin_no_fuel (size : Nat) (r : Reader) : readBin size r ≠ .outOfFuel := by
  unfold readBin
  repeat' split
  all_goals intro h; cases h

theorem readStr_no_fuel (size : Nat) (r : Reader) : readStr size r ≠ .outOfFuel := by
  unfold readStr
  split
  · split
    · intro h; cases h
    · intro h; cases h
  · intro h; cases h
  · intro h; cases h
  · rename_i heq
    exact absurd heq (readBin_no_fuel _ _)

theorem readDate_no_fuel (size : Nat) (r : Reader) : readDate size r ≠ .outOfFuel := by
  unfold readDate
  split
  · exact readInt_no_fuel _ _
  · intro h; cases h

theorem parseLeafVal_no_fuel (id size : Nat) (r : Reader) : parseLeafVal id size r ≠ .outOfFuel := by
  unfold parseLeafVal
  split
  · split
    · intro h; cases h
    · intro h; cases h
    · intro h; cases h
    · rename_i heq; exact absurd heq (readInt_no_fuel _ _)
  · split
    · split
      · intro h; cases h
      · intro h; cases h
      · intro h; cases h
      · rename_i heq; exact absurd heq (readUint_no_fuel _ _)
    · split
      · split
        · intro h; cases h
        · intro h; cases h
        · intro h; cases h
        · rename_i heq; exact absurd heq (readStr_no_fuel _ _)
      · split
        · split
          · intro h; cases h
          · intro h; cases h
          · intro h; cases h
          · rename_i heq; exact absurd heq (readStr_no_fuel _ _)
        · split
          · split
            · intro h; cases h
            · intro h; cases h
            · intro h; cases h
            · rename_i heq; exact absurd heq (readBin_no_fuel _ _)
          · split
            · split
              · intro h; cases h
              · intro h; cases h
              · intro h; cases h
              · rename_i heq; exact absurd heq (readFloat_no_fuel _ _)
            · split
              · split
                · intro h; cases h
                · intro h; cases h
                · intro h; cases h
                · rename_i heq; exact absurd heq (readDate_no_fuel _ _)
              · split
                · intro h; cases h
                · intro h; cases h
                · intro h; cases h
                · rename_i heq; exact absurd heq (readBin_no_fuel _ _)

theorem parseMasterF_fuel_sufficient :
    ∀ fuel size : Nat, ∀ r : Reader, remNat r < fuel →
      parseMasterF fuel size r ≠ .outOfFuel := by
  intro fuel
  induction fuel with
  | zero =>
    intro size r hlt
    exact absurd hlt (Nat.not_lt_zero _)
  | succ fuel ih =>
    intro size r hlt h
    unfold parseMasterF at h
    split at h
    · cases h
    · split at h
      · cases h
      · cases h
      · rename_i hoof
        exact absurd hoof (readElementIdSize_no_fuel r)
      · rename_i id bsize hlen r1 hhdr
        obtain ⟨hdh, hlh, hph, hleh⟩ := readElementIdSize_spec hhdr
        dsimp only at h
        split at h
        · cases h
        · cases h
        · -- the body parse itself ran out of fuel
          rename_i hbody
          split at hbody
          · split at hbody
            · cases hbody
            · cases hbody
            · cases hbody
            · rename_i hchild
              have e1 : r1.data.length = r.data.length := by rw [hdh]
              refine absurd hchild (ih bsize r1 ?_)
              simp only [remNat] at hlt ⊢
              omega
          · exact absurd hbody (parseLeafVal_no_fuel _ _ _)
        · -- body parsed; the continuation is the only remaining source of fuel use
          rename_i v r2 hbody
          have hcons : r2.data = r1.data ∧ r1.pos ≤ r2.pos := by
            split at hbody
            · split at hbody
              · rename_i children r2x hchild
                simp only [PResult.ok.injEq, Prod.mk.injEq] at hbody
                obtain ⟨-, rfl⟩ := hbody
                exact parseMasterF_consume fuel bsize r1 children _ hchild
              · cases hbody
              · cases hbody
              · cases hbody
            · exact parseLeafVal_spec hbody
          obtain ⟨hd2, hp2⟩ := hcons
          split at h
          · cases h
          · split at h
            · cases h
            · cases h
            · cases h
            · rename_i hrec
              have e2 : r2.data.length = r.data.length := by rw [hd2, hdh]
              refine absurd hrec (ih _ r2 ?_)
              simp only [remNat] at hlt ⊢
              omega

/-! ## The claims -/

/-- C10: `Element::parse_master` terminates for every reader and finite
budget.  (1) Every successfully parsed child has total size
header-length + body-size at least 2 (a header is at least a one-byte ID
plus a one-byte size), so the remaining budget strictly decreases on
every loop iteration; (2) fuel exceeding the reader's remaining byte
count is never exhausted, i.e. the recursion terminates on every input;
(3) in particular the self-fuelled `Element.parse_master` never reports
fuel exhaustion. -/
theorem c10_parse_master_terminates :
    (∀ (r : Reader) (id bsize hlen : Nat) (r' : Reader),
        readElementIdSize r = .ok (id, bsize, hlen, r') → 2 ≤ hlen + bsize) ∧
    (∀ fuel size : Nat, ∀ r : Reader, remNat r < fuel →
        parseMasterF fuel size r ≠ .outOfFuel) ∧
    (∀ size : Nat, ∀ r : Reader, Element.parse_master size r ≠ .outOfFuel) := by
  refine ⟨?_, parseMasterF_fuel_sufficient, ?_⟩
  · intro r id bsize hlen r' h
    obtain ⟨-, h2, -, -⟩ := readElementIdSize_spec h
    omega
  · intro size r
    exact parseMasterF_fuel_sufficient (remNat r + 1) size r (Nat.lt_succ_self _)

/-- Witness for C10 at concrete inputs: the header A1 81 has length 2 (so
the child A1 81 00 has total size 3 ≥ 2), and the parser with adequate
fuel does not exhaust it on the 3-byte input. -/
theorem c10_witness :
    2 ≤ 2 + 1 ∧
      parseMasterF 4 1 ⟨[0xA1, 0x81, 0x00], 0⟩ ≠ .outOfFuel ∧
      Element.parse_master 3 ⟨[0xA1, 0x81, 0x07], 0⟩ ≠ .outOfFuel :=
  ⟨c10_parse_master_terminates.1 ⟨[0xA1, 0x81], 0⟩ 0xA1 1 2 ⟨[0xA1, 0x81], 2⟩ rfl,
   c10_parse_master_terminates.2.1 4 1 ⟨[0xA1, 0x81, 0x00], 0⟩ (by decide),
   c10_parse_master_terminates.2.2 3 ⟨[0xA1, 0x81, 0x07], 0⟩⟩

/-- C1: the claim says a child whose total size exceeds the remaining
parent budget makes `parse_master` return a CorruptFile error and that no
malformed input causes a panic.  The source instead runs
`assert!(e.size <= size)`: on the 3-byte child A1 81 00 against a parent
budget of 1 byte the assertion fails and the process panics (modelled as
the `.panicked` outcome); `MatroskaError` in src/ebml.rs has no
CorruptFile-style variant this path could return. -/
theorem c1_parse_master_overrun_asserts :
    parseMasterF 4 1 ⟨[0xA1, 0x81, 0x00], 0⟩ = .panicked ∧
      Element.parse_master 1 ⟨[0xA1, 0x81, 0x00], 0⟩ = .panicked :=
  ⟨rfl, rfl⟩

/-- C2: the claim says a cyclic SeekHead chain is detected (depth limit
or visited-offset set) and reported as CorruptFile.  The source's
chain-following loop has neither: on the self-referencing SeekHead of
`cycBytes` it exhausts every finite fuel budget, i.e. it loops forever
instead of returning any error. -/
theorem c2_seekhead_cycle_diverges :
    ∀ fuel : Nat, Seektable.parse fuel 0 14 ⟨cycBytes, 5⟩ = .outOfFuel := by
  intro fuel
  show Seektable.parseLoopF fuel (Seektable.new 0) 0 14 ⟨cycBytes, 5⟩ = .outOfFuel
  induction fuel with
  | zero => rfl
  | succ fuel ih =>
    have step :
        Seektable.parseLoopF (fuel + 1) (Seektable.new 0) 0 14 ⟨cycBytes, 5⟩ =
          Seektable.parseLoopF fuel (Seektable.new 0) 0 14 ⟨cycBytes, 5⟩ := rfl
    rw [step]
    exact ih

/-- C5: the claim says every subtraction on the navigator's
remaining-budget counter is checked, with underflow reported as a
corrupt-file error.  The source runs the plain `size_0 -= len;
size_0 -= size_1`, which on `undersizedSegmentBytes` (budget 1, child of
total size 3) underflows: with overflow checks the process panics
(modelled `.panicked`), and in a release build the counter would wrap —
in neither build is an error value returned. -/
theorem c5_budget_underflow_asserts :
    Matroska.openF 10 ⟨undersizedSegmentBytes, 0⟩ = .panicked := rfl

/-- C7: when the Segment-children loop meets a SeekHead child it hands
control to the SeekHead branch — parse the seektable (chain included),
fetch each of Info/Tracks/Attachments/Chapters/Tags that the table names
(seeking there and verifying the ID read back), and return the assembled
result immediately — and never returns to the loop, so siblings after the
SeekHead are not consulted.  Concretely, on `seekheadWinsBytes` the
sibling Info ("B") directly after the SeekHead is ignored in favour of
the table's Info ("A"). -/
theorem c7_seekhead_wins :
    (∀ (fuel : Nat) (m : Matroska) (segment_start size0 : Nat) (r : Reader)
        (size1 len : Nat) (r1 : Reader),
        size0 ≠ 0 →
        readElementIdSize r = .ok (ids.SEEKHEAD, size1, len, r1) →
        openLoopF (fuel + 1) m segment_start size0 r =
          seekHeadBranch fuel segment_start size1 m r1) ∧
    Matroska.openF 100 ⟨seekheadWinsBytes, 0⟩ =
      .ok { Matroska.new with info := { Info.new with muxing_app := [0x41] } } := by
  constructor
  · intro fuel m segment_start size0 r size1 len r1 h0 hhdr
    unfold openLoopF
    rw [if_neg h0, hhdr]
    dsimp only
    rw [if_pos rfl]
  · rfl

/-- Witness for C7: the general SeekHead-branch equation applied to the
concrete file, its hypotheses discharged by evaluation. -/
theorem c7_witness :
    (35 : Nat) ≠ 0 ∧
      openLoopF 100 Matroska.new 5 35 ⟨seekheadWinsBytes, 5⟩ =
        seekHeadBranch 99 5 14 Matroska.new ⟨seekheadWinsBytes, 10⟩ :=
  ⟨by decide,
   c7_seekhead_wins.1 99 Matroska.new 5 35 ⟨seekheadWinsBytes, 5⟩ 14 5
     ⟨seekheadWinsBytes, 10⟩ (by decide) rfl⟩

/-- C4: `Seektable::get` returns the checked sum `segment_start +
position` when the table maps the ID, `None` when it does not, and the
structural-corruption error (`InvalidSeekHead`, the class the spec's
taxonomy labels CorruptFile) when the 64-bit addition would overflow. -/
theorem c4_seektable_get_spec :
    ∀ (st : Seektable) (id : Nat),
      (mapGet st.seek id = none → st.get id = .ok none) ∧
      (∀ position : Nat, mapGet st.seek id = some position →
        st.offset + position ≤ 2 ^ 64 - 1 →
        st.get id = .ok (some (st.offset + position))) ∧
      (∀ position : Nat, mapGet st.seek id = some position →
        2 ^ 64 - 1 < st.offset + position →
        st.get id = .err (.InvalidSeekHead id)) := by
  intro st id
  refine ⟨?_, ?_, ?_⟩
  · intro h
    unfold Seektable.get
    rw [h]
  · intro p hp hle
    unfold Seektable.get
    rw [hp]
    dsimp only
    rw [if_pos hle]
  · intro p hp hgt
    unfold Seektable.get
    rw [hp]
    dsimp only
    rw [if_neg (by omega)]

/-- Witness for C4: all three cases of `Seektable::get` at concrete
tables. -/
theorem c4_witness :
    (Seektable.mk 10 [(ids.INFO, 5)]).get ids.INFO = .ok (some 15) ∧
      (Seektable.mk (2 ^ 64 - 1) [(ids.INFO, 5)]).get ids.INFO =
        .err (.InvalidSeekHead ids.INFO) ∧
      (Seektable.mk 10 []).get ids.TRACKS = .ok none :=
  ⟨(c4_seektable_get_spec _ ids.INFO).2.1 5 rfl (by norm_num),
   (c4_seektable_get_spec _ ids.INFO).2.2 5 rfl (by norm_num),
   (c4_seektable_get_spec _ ids.TRACKS).1 rfl⟩

theorem langAfter_comp (cur : Option Lang) (isoE ietfE isoR ietfR : Option (List Nat)) :
    langAfter (langAfter cur isoE ietfE) isoR ietfR =
      langAfter cur
        (match isoR with
         | some s => some s
         | none => isoE)
        (match ietfR with
         | some s => some s
         | none => ietfE) := by
  rcases ietfR with _ | s
  · rcases ietfE with _ | s'
    · rcases isoR with _ | x
      · rfl
      · rcases isoE with _ | y
        · rfl
        · rcases cur with _ | l
          · rfl
          · cases l <;> rfl
    · rcases isoR with _ | x <;> rfl
  · rfl

theorem langFold {σ : Type} (step : σ → Element → σ) (L : σ → Option Lang)
    (iso ietf : Nat)
    (hstep : ∀ t e, L (step t e) =
      langAfter (L t) (langStrOfElem iso e) (langStrOfElem ietf e)) :
    ∀ (es : List Element) (t : σ),
      L (es.foldl step t) =
        langAfter (L t) (lastLangStr iso es) (lastLangStr ietf es) := by
  intro es
  induction es with
  | nil => intro t; rfl
  | cons e es ih =>
    intro t
    rw [List.foldl_cons, ih (step t e), hstep t e, langAfter_comp]
    rfl

theorem trackStep_language (t : Track) (e : Element) :
    (trackStep t e).language =
      langAfter t.language (langStrOfElem ids.LANGUAGE e)
        (langStrOfElem ids.LANGUAGE_IETF e) := by
  rcases e with ⟨id, sz, v⟩
  unfold trackStep langStrOfElem
  dsimp only [Element.id, Element.val]
  by_cases h1 : id = ids.TRACKNUMBER
  · rw [if_pos h1, if_neg (fun hh => absurd (h1.symm.trans hh) (by decide)), if_neg (fun hh => absurd (h1.symm.trans hh) (by decide))]
    cases v <;> rfl
  · rw [if_neg h1]
    by_cases h2 : id = ids.TRACKUID
    · rw [if_pos h2, if_neg (fun hh => absurd (h2.symm.trans hh) (by decide)), if_neg (fun hh => absurd (h2.symm.trans hh) (by decide))]
      cases v <;> rfl
    · rw [if_neg h2]
      by_cases h3 : id = ids.TRACKTYPE
      · rw [if_pos h3, if_neg (fun hh => absurd (h3.symm.trans hh) (by decide)), if_neg (fun hh => absurd (h3.symm.trans hh) (by decide))]
        cases v <;> rfl
      · rw [if_neg h3]
        by_cases h4 : id = ids.FLAGENABLED
        · rw [if_pos h4, if_neg (fun hh => absurd (h4.symm.trans hh) (by decide)), if_neg (fun hh => absurd (h4.symm.trans hh) (by decide))]
          cases v <;> rfl
        · rw [if_neg h4]
          by_cases h5 : id = ids.FLAGDEFAULT
          · rw [if_pos h5, if_neg (fun hh => absurd (h5.symm.trans hh) (by decide)), if_neg (fun hh => absurd (h5.symm.trans hh) (by decide))]
            cases v <;> rfl
          · rw [if_neg h5]
            by_cases h6 : id = ids.FLAGFORCED
            · rw [if_pos h6, if_neg (fun hh => absurd (h6.symm.trans hh) (by decide)), if_neg (fun hh => absurd (h6.symm.trans hh) (by decide))]
              cases v <;> rfl
            · rw [if_neg h6]
              by_cases h7 : id = ids.FLAGHEARINGIMPAIRED
              · rw [if_pos h7, if_neg (fun hh => absurd (h7.symm.trans hh) (by decide)), if_neg (fun hh => absurd (h7.symm.trans hh) (by decide))]
                cases v <;> rfl
              · rw [if_neg h7]
                by_cases h8 : id = ids.FLAGVISUALIMPAIRED
                · rw [if_pos h8, if_neg (fun hh => absurd (h8.symm.trans hh) (by decide)), if_neg (fun hh => absurd (h8.symm.trans hh) (by decide))]
                  cases v <;> rfl
                · rw [if_neg h8]
                  by_cases h9 : id = ids.FLAGTEXTDESCRIPTIONS
                  · rw [if_pos h9, if_neg (fun hh => absurd (h9.symm.trans hh) (by decide)), if_neg (fun hh => absurd (h9.symm.trans hh) (by decide))]
                    cases v <;> rfl
                  · rw [if_neg h9]
                    by_cases h10 : id = ids.FLAGORIGINAL
                    · rw [if_pos h10, if_neg (fun hh => absurd (h10.symm.trans hh) (by decide)), if_neg (fun hh => absurd (h10.symm.trans hh) (by decide))]
                      cases v <;> rfl
                    · rw [if_neg h10]
                      by_cases h11 : id = ids.FLAGCOMMENTARY
                      · rw [if_pos h11, if_neg (fun hh => absurd (h11.symm.trans hh) (by decide)), if_neg (fun hh => absurd (h11.symm.trans hh) (by decide))]
                        cases v <;> rfl
                      · rw [if_neg h11]
                        by_cases h12 : id = ids.FLAGLACING
                        · rw [if_pos h12, if_neg (fun hh => absurd (h12.symm.trans hh) (by decide)), if_neg (fun hh => absurd (h12.symm.trans hh) (by decide))]
                          cases v <;> rfl
                        · rw [if_neg h12]
                          by_cases h13 : id = ids.DEFAULTDURATION
                          · rw [if_pos h13, if_neg (fun hh => absurd (h13.symm.trans hh) (by decide)), if_neg (fun hh => absurd (h13.symm.trans hh) (by decide))]
                            cases v <;> rfl
                          · rw [if_neg h13]
                            by_cases h14 : id = ids.NAME
                            · rw [if_pos h14, if_neg (fun hh => absurd (h14.symm.trans hh) (by decide)), if_neg (fun hh => absurd (h14.symm.trans hh) (by decide))]
                              cases v <;> rfl
                            · rw [if_neg h14]
                              by_cases h15 : id = ids.LANGUAGE
                              · rw [if_pos h15, if_pos h15, if_neg (fun hh => absurd (h15.symm.trans hh) (by decide))]
                                cases v <;>
                                  first
                                    | rfl
                                    | (rcases ht : t.language with _ | l
                                       · (try rw [ht]) <;> rfl
                                       · cases l <;> (try rw [ht]) <;> rfl)
                              · rw [if_neg h15]
                                by_cases h16 : id = ids.LANGUAGE_IETF
                                · rw [if_pos h16, if_neg h15, if_pos h16]
                                  cases v <;> rfl
                                · rw [if_neg h16]
                                  by_cases h17 : id = ids.CODEC_ID
                                  · rw [if_pos h17, if_neg h15, if_neg h16]
                                    cases v <;> rfl
                                  · rw [if_neg h17]
                                    by_cases h18 : id = ids.CODEC_PRIVATE
                                    · rw [if_pos h18, if_neg h15, if_neg h16]
                                      cases v <;> rfl
                                    · rw [if_neg h18]
                                      by_cases h19 : id = ids.CODEC_NAME
                                      · rw [if_pos h19, if_neg h15, if_neg h16]
                                        cases v <;> rfl
                                      · rw [if_neg h19]
                                        by_cases h20 : id = ids.VIDEO
                                        · rw [if_pos h20, if_neg h15, if_neg h16]
                                          cases v <;> rfl
                                        · rw [if_neg h20]
                                          by_cases h21 : id = ids.AUDIO
                                          · rw [if_pos h21, if_neg h15, if_neg h16]
                                            cases v <;> rfl
                                          · rw [if_neg h21]
                                            rw [if_neg h15, if_neg h16]
                                            rfl

theorem trackStep_number (t : Track) (e : Element) :
    (trackStep t e).number = (numberOfElem e).getD t.number := by
  rcases e with ⟨id, sz, v⟩
  unfold trackStep numberOfElem
  dsimp only [Element.id, Element.val]
  by_cases h1 : id = ids.TRACKNUMBER
  · rw [if_pos h1, if_pos h1]
    cases v <;> rfl
  · rw [if_neg h1]
    by_cases h2 : id = ids.TRACKUID
    · rw [if_pos h2, if_neg h1]
      cases v <;> rfl
    · rw [if_neg h2]
      by_cases h3 : id = ids.TRACKTYPE
      · rw [if_pos h3, if_neg h1]
        cases v <;> rfl
      · rw [if_neg h3]
        by_cases h4 : id = ids.FLAGENABLED
        · rw [if_pos h4, if_neg h1]
          cases v <;> rfl
        · rw [if_neg h4]
          by_cases h5 : id = ids.FLAGDEFAULT
          · rw [if_pos h5, if_neg h1]
            cases v <;> rfl
          · rw [if_neg h5]
            by_cases h6 : id = ids.FLAGFORCED
            · rw [if_pos h6, if_neg h1]
              cases v <;> rfl
            · rw [if_neg h6]
              by_cases h7 : id = ids.FLAGHEARINGIMPAIRED
              · rw [if_pos h7, if_neg h1]
                cases v <;> rfl
              · rw [if_neg h7]
                by_cases h8 : id = ids.FLAGVISUALIMPAIRED
                · rw [if_pos h8, if_neg h1]
                  cases v <;> rfl
                · rw [if_neg h8]
                  by_cases h9 : id = ids.FLAGTEXTDESCRIPTIONS
                  · rw [if_pos h9, if_neg h1]
                    cases v <;> rfl
                  · rw [if_neg h9]
                    by_cases h10 : id = ids.FLAGORIGINAL
                    · rw [if_pos h10, if_neg h1]
                      cases v <;> rfl
                    · rw [if_neg h10]
                      by_cases h11 : id = ids.FLAGCOMMENTARY
                      · rw [if_pos h11, if_neg h1]
                        cases v <;> rfl
                      · rw [if_neg h11]
                        by_cases h12 : id = ids.FLAGLACING
                        · rw [if_pos h12, if_neg h1]
                          cases v <;> rfl
                        · rw [if_neg h12]
                          by_cases h13 : id = ids.DEFAULTDURATION
                          · rw [if_pos h13, if_neg h1]
                            cases v <;> rfl
                          · rw [if_neg h13]
                            by_cases h14 : id = ids.NAME
                            · rw [if_pos h14, if_neg h1]
                              cases v <;> rfl
                            · rw [if_neg h14]
                              by_cases h15 : id = ids.LANGUAGE
                              · rw [if_pos h15, if_neg h1]
                                cases v <;>
                                  first
                                    | rfl
                                    | (rcases ht : t.language with _ | l
                                       · (try rw [ht]) <;> rfl
                                       · cases l <;> (try rw [ht]) <;> rfl)
                              · rw [if_neg h15]
                                by_cases h16 : id = ids.LANGUAGE_IETF
                                · rw [if_pos h16, if_neg h1]
                                  cases v <;> rfl
                                · rw [if_neg h16]
                                  by_cases h17 : id = ids.CODEC_ID
                                  · rw [if_pos h17, if_neg h1]
                                    cases v <;> rfl
                                  · rw [if_neg h17]
                                    by_cases h18 : id = ids.CODEC_PRIVATE
                                    · rw [if_pos h18, if_neg h1]
                                      cases v <;> rfl
                                    · rw [if_neg h18]
                                      by_cases h19 : id = ids.CODEC_NAME
                                      · rw [if_pos h19, if_neg h1]
                                        cases v <;> rfl
                                      · rw [if_neg h19]
                                        by_cases h20 : id = ids.VIDEO
                                        · rw [if_pos h20, if_neg h1]
                                          cases v <;> rfl
                                        · rw [if_neg h20]
                                          by_cases h21 : id = ids.AUDIO
                                          · rw [if_pos h21, if_neg h1]
                                            cases v <;> rfl
                                          · rw [if_neg h21]
                                            rw [if_neg h1]
                                            rfl

theorem chapterDisplayStep_language (d : ChapterDisplay) (e : Element) :
    some ((chapterDisplayStep d e).language) =
      langAfter (some d.language) (langStrOfElem ids.CHAPLANGUAGE e)
        (langStrOfElem ids.CHAPLANGUAGE_IETF e) := by
  rcases e with ⟨id, sz, v⟩
  unfold chapterDisplayStep langStrOfElem
  dsimp only [Element.id, Element.val]
  by_cases h1 : id = ids.CHAPSTRING
  · rw [if_pos h1, if_neg (fun hh => absurd (h1.symm.trans hh) (by decide)), if_neg (fun hh => absurd (h1.symm.trans hh) (by decide))]
    cases v <;> rfl
  · rw [if_neg h1]
    by_cases h2 : id = ids.CHAPLANGUAGE
    · rw [if_pos h2, if_pos h2, if_neg (fun hh => absurd (h2.symm.trans hh) (by decide))]
      cases v <;>
        first
          | rfl
          | (cases hl : d.language <;> (try rw [hl]) <;> rfl)
    · rw [if_neg h2]
      by_cases h3 : id = ids.CHAPLANGUAGE_IETF
      · rw [if_pos h3, if_neg h2, if_pos h3]
        cases v <;> rfl
      · rw [if_neg h3]
        rw [if_neg h2, if_neg h3]
        rfl

theorem simpleTagStep_language (t : SimpleTag) (e : Element) :
    (simpleTagStep t e).language =
      langAfter t.language (langStrOfElem ids.TAGLANGUAGE e)
        (langStrOfElem ids.TAGLANGUAGE_IETF e) := by
  rcases e with ⟨id, sz, v⟩
  unfold simpleTagStep langStrOfElem
  dsimp only [Element.id, Element.val]
  by_cases h1 : id = ids.TAGNAME
  · rw [if_pos h1, if_neg (fun hh => absurd (h1.symm.trans hh) (by decide)), if_neg (fun hh => absurd (h1.symm.trans hh) (by decide))]
    cases v <;> rfl
  · rw [if_neg h1]
    by_cases h2 : id = ids.TAGLANGUAGE
    · rw [if_pos h2, if_pos h2, if_neg (fun hh => absurd (h2.symm.trans hh) (by decide))]
      cases v <;>
        first
          | rfl
          | (rcases ht : t.language with _ | l
             · (try rw [ht]) <;> rfl
             · cases l <;> (try rw [ht]) <;> rfl)
    · rw [if_neg h2]
      by_cases h3 : id = ids.TAGLANGUAGE_IETF
      · rw [if_pos h3, if_neg h2, if_pos h3]
        cases v <;> rfl
      · rw [if_neg h3]
        by_cases h4 : id = ids.TAGDEFAULT
        · rw [if_pos h4, if_neg h2, if_neg h3]
          cases v <;> rfl
        · rw [if_neg h4]
          by_cases h5 : id = ids.TAGSTRING
          · rw [if_pos h5, if_neg h2, if_neg h3]
            cases v <;> rfl
          · rw [if_neg h5]
            by_cases h6 : id = ids.TAGBINARY
            · rw [if_pos h6, if_neg h2, if_neg h3]
              cases v <;> rfl
            · rw [if_neg h6]
              rw [if_neg h2, if_neg h3]
              rfl

theorem trackFold_number :
    ∀ (es : List Element) (t : Track),
      (es.foldl trackStep t).number = (lastTrackNumber es).getD t.number := by
  intro es
  induction es with
  | nil => intro t; rfl
  | cons e es ih =>
    intro t
    rw [List.foldl_cons, ih (trackStep t e), trackStep_number]
    cases hln : lastTrackNumber es <;> simp [lastTrackNumber, hln]

/-- C8: in the folds of `Track::build_entry`, `ChapterDisplay::build` and
`SimpleTag::build_entry`, an IETF language child always wins: whenever a
LanguageIETF (String-typed) child is present — wherever it sits relative
to any ISO-639 Language children — the resulting language is the IETF
value (the last one); when no IETF child is present and an ISO-639 child
is, the result is the (last) ISO-639 value. -/
theorem c8_language_precedence :
    (∀ (elements : List Element) (s : List Nat),
      lastLangStr ids.LANGUAGE_IETF elements = some s →
      (Track.build_entry elements).language = some (.IETF s)) ∧
    (∀ (elements : List Element) (s : List Nat),
      lastLangStr ids.LANGUAGE_IETF elements = none →
      lastLangStr ids.LANGUAGE elements = some s →
      (Track.build_entry elements).language = some (.ISO639 s)) ∧
    (∀ (elements : List Element) (s : List Nat),
      lastLangStr ids.CHAPLANGUAGE_IETF elements = some s →
      (ChapterDisplay.build elements).language = .IETF s) ∧
    (∀ (elements : List Element) (s : List Nat),
      lastLangStr ids.CHAPLANGUAGE_IETF elements = none →
      lastLangStr ids.CHAPLANGUAGE elements = some s →
      (ChapterDisplay.build elements).language = .ISO639 s) ∧
    (∀ (elements : List Element) (s : List Nat),
      lastLangStr ids.TAGLANGUAGE_IETF elements = some s →
      (SimpleTag.build_entry elements).language = some (.IETF s)) ∧
    (∀ (elements : List Element) (s : List Nat),
      lastLangStr ids.TAGLANGUAGE_IETF elements = none →
      lastLangStr ids.TAGLANGUAGE elements = some s →
      (SimpleTag.build_entry elements).language = some (.ISO639 s)) := by
  have htrack := langFold trackStep Track.language ids.LANGUAGE ids.LANGUAGE_IETF
    trackStep_language
  have hdisp := langFold chapterDisplayStep (fun d => some d.language)
    ids.CHAPLANGUAGE ids.CHAPLANGUAGE_IETF chapterDisplayStep_language
  have htag := langFold simpleTagStep SimpleTag.language ids.TAGLANGUAGE
    ids.TAGLANGUAGE_IETF simpleTagStep_language
  refine ⟨?_, ?_, ?_, ?_, ?_, ?_⟩
  · intro es s h
    have h2 := htrack es Track.new
    rw [h] at h2
    exact h2
  · intro es s hietf hiso
    have h2 := htrack es Track.new
    rw [hietf, hiso] at h2
    exact h2
  · intro es s h
    have h2 := hdisp es ChapterDisplay.new
    rw [h] at h2
    exact Option.some_injective _ h2
  · intro es s hietf hiso
    have h2 := hdisp es ChapterDisplay.new
    rw [hietf, hiso] at h2
    exact Option.some_injective _ h2
  · intro es s h
    have h2 := htag es SimpleTag.new
    rw [h] at h2
    exact h2
  · intro es s hietf hiso
    have h2 := htag es SimpleTag.new
    rw [hietf, hiso] at h2
    exact h2

/-- C9 (counterexample): parsing a Tracks section whose single TrackEntry
is empty yields a Track with number 0, not at least 1 — `Track::new`
defaults the number to 0 and nothing raises it. -/
theorem c9_track_number_zero :
    Track.parse 2 ⟨[0xAE, 0x80], 0⟩ = .ok ([Track.new], ⟨[0xAE, 0x80], 2⟩) ∧
      Track.new.number < 1 := ⟨rfl, by decide⟩

/-- C9 (amended): the number field of a parsed Track carries the last
TrackNumber child's value and defaults to 0 when no TrackNumber child is
present, so it is at least 1 exactly when the file supplies a TrackNumber
of at least 1. -/
theorem c9_track_number_amended :
    ∀ elements : List Element,
      (Track.build_entry elements).number = (lastTrackNumber elements).getD 0 :=
  fun es => trackFold_number es Track.new

/-- C6: read_element_id decodes a VINT of total width 1 to 4 bytes, returning
the id together with its header length; the id preserves the VINT marker bit,
i.e. it is the raw big-endian value of the header bytes themselves (one-byte
0x80 decodes to 0x80, a k-byte id keeps its marker ORed back in); a leading
byte signalling a width greater than 4 yields the InvalidID error. -/
theorem c6_read_element_id_spec :
    (∀ (b : Nat) (rest : List Nat), 0x80 ≤ b → b ≤ 0xFF →
      readElementId ⟨b :: rest, 0⟩ = .ok (b, 1, ⟨b :: rest, 1⟩)) ∧
    (∀ (b c : Nat) (rest : List Nat), 0x40 ≤ b → b < 0x80 →
      readElementId ⟨b :: c :: rest, 0⟩ =
        .ok (b * 256 + c, 2, ⟨b :: c :: rest, 2⟩)) ∧
    (∀ (b c d : Nat) (rest : List Nat), 0x20 ≤ b → b < 0x40 →
      readElementId ⟨b :: c :: d :: rest, 0⟩ =
        .ok (b * 65536 + c * 256 + d, 3, ⟨b :: c :: d :: rest, 3⟩)) ∧
    (∀ (b c d e : Nat) (rest : List Nat), 0x10 ≤ b → b < 0x20 →
      readElementId ⟨b :: c :: d :: e :: rest, 0⟩ =
        .ok (b * 16777216 + c * 65536 + d * 256 + e, 4,
          ⟨b :: c :: d :: e :: rest, 4⟩)) ∧
    (∀ (b : Nat) (rest : List Nat), 0 < b → b < 0x10 →
      readElementId ⟨b :: rest, 0⟩ = .err .InvalidID) := by
  refine ⟨?_, ?_, ?_, ?_, ?_⟩
  · intro b rest h1 h2
    have hb : (0x80 + b % 0x80 : Nat) = b := by omega
    suffices hsuf : readElementId ⟨b :: rest, 0⟩ =
        .ok (0x80 + b % 0x80, 1, ⟨b :: rest, 1⟩) by
      rw [hsuf, hb]
    dsimp only [readElementId, read1, List.get?]
    rw [if_pos h1]
  · intro b c rest h1 h2
    have hb : (0x4000 + ((b % 0x40) * 256 + beVal [c]) : Nat) = b * 256 + c := by
      simp only [beVal, List.foldl]
      omega
    suffices hsuf : readElementId ⟨b :: c :: rest, 0⟩ =
        .ok (0x4000 + ((b % 0x40) * 256 + beVal [c]), 2, ⟨b :: c :: rest, 2⟩) by
      rw [hsuf, hb]
    dsimp only [readElementId, read1, List.get?]
    rw [if_neg (show ¬ 0x80 ≤ b by omega), if_pos h1]
    dsimp only [readBytes]
    rw [if_pos (show 0 + 1 + 1 ≤ (b :: c :: rest).length by
      simp only [List.length_cons]; omega)]
    rfl
  · intro b c d rest h1 h2
    have hb : (0x200000 + ((b % 0x20) * 65536 + beVal [c, d]) : Nat) =
        b * 65536 + c * 256 + d := by
      simp only [beVal, List.foldl]
      omega
    suffices hsuf : readElementId ⟨b :: c :: d :: rest, 0⟩ =
        .ok (0x200000 + ((b % 0x20) * 65536 + beVal [c, d]), 3,
          ⟨b :: c :: d :: rest, 3⟩) by
      rw [hsuf, hb]
    dsimp only [readElementId, read1, List.get?]
    rw [if_neg (show ¬ 0x80 ≤ b by omega), if_neg (show ¬ 0x40 ≤ b by omega),
      if_pos h1]
    dsimp only [readBytes]
    rw [if_pos (show 0 + 1 + 2 ≤ (b :: c :: d :: rest).length by
      simp only [List.length_cons]; omega)]
    rfl
  · intro b c d e rest h1 h2
    have hb : (0x10000000 + ((b % 0x10) * 16777216 + beVal [c, d, e]) : Nat) =
        b * 16777216 + c * 65536 + d * 256 + e := by
      simp only [beVal, List.foldl]
      omega
    suffices hsuf : readElementId ⟨b :: c :: d :: e :: rest, 0⟩ =
        .ok (0x10000000 + ((b % 0x10) * 16777216 + beVal [c, d, e]), 4,
          ⟨b :: c :: d :: e :: rest, 4⟩) by
      rw [hsuf, hb]
    dsimp only [readElementId, read1, List.get?]
    rw [if_neg (show ¬ 0x80 ≤ b by omega), if_neg (show ¬ 0x40 ≤ b by omega),
      if_neg (show ¬ 0x20 ≤ b by omega), if_pos h1]
    dsimp only [readBytes]
    rw [if_pos (show 0 + 1 + 3 ≤ (b :: c :: d :: e :: rest).length by
      simp only [List.length_cons]; omega)]
    rfl
  · intro b rest hpos hlt
    dsimp only [readElementId, read1, List.get?]
    rw [if_neg (show ¬ 0x80 ≤ b by omega), if_neg (show ¬ 0x40 ≤ b by omega),
      if_neg (show ¬ 0x20 ≤ b by omega), if_neg (show ¬ 0x10 ≤ b by omega),
      if_pos (show b ≠ 0 by omega)]

theorem c6_witness :
    readElementId ⟨[0xA3, 0x01], 0⟩ = .ok (0xA3, 1, ⟨[0xA3, 0x01], 1⟩) ∧
    readElementId ⟨[0x42, 0x86, 0x00], 0⟩ =
      .ok (0x4286, 2, ⟨[0x42, 0x86, 0x00], 2⟩) ∧
    readElementId ⟨[0x2A, 0xD7, 0xB1, 0x00], 0⟩ =
      .ok (0x2AD7B1, 3, ⟨[0x2A, 0xD7, 0xB1, 0x00], 3⟩) ∧
    readElementId ⟨[0x1A, 0x45, 0xDF, 0xA3], 0⟩ =
      .ok (0x1A45DFA3, 4, ⟨[0x1A, 0x45, 0xDF, 0xA3], 4⟩) ∧
    readElementId ⟨[0x08], 0⟩ = .err .InvalidID :=
  ⟨c6_read_element_id_spec.1 0xA3 [0x01] (by decide) (by decide),
   c6_read_element_id_spec.2.1 0x42 0x86 [0x00] (by decide) (by decide),
   c6_read_element_id_spec.2.2.1 0x2A 0xD7 0xB1 [0x00] (by decide) (by decide),
   c6_read_element_id_spec.2.2.2.1 0x1A 0x45 0xDF 0xA3 [] (by decide) (by decide),
   c6_read_element_id_spec.2.2.2.2 0x08 [] (by decide) (by decide)⟩

theorem c8_witness :
    lastLangStr ids.LANGUAGE_IETF
        [⟨ids.LANGUAGE, 3, .Str [0x64]⟩, ⟨ids.LANGUAGE_IETF, 3, .Str [0x65]⟩] =
      some [0x65] ∧
    (Track.build_entry
        [⟨ids.LANGUAGE, 3, .Str [0x64]⟩,
         ⟨ids.LANGUAGE_IETF, 3, .Str [0x65]⟩]).language = some (.IETF [0x65]) ∧
    lastLangStr ids.TAGLANGUAGE_IETF [⟨ids.TAGLANGUAGE, 3, .Str [0x64]⟩] = none ∧
    lastLangStr ids.TAGLANGUAGE [⟨ids.TAGLANGUAGE, 3, .Str [0x64]⟩] =
      some [0x64] ∧
    (SimpleTag.build_entry [⟨ids.TAGLANGUAGE, 3, .Str [0x64]⟩]).language =
      some (.ISO639 [0x64]) :=
  ⟨by decide,
   c8_language_precedence.1
     [⟨ids.LANGUAGE, 3, .Str [0x64]⟩, ⟨ids.LANGUAGE_IETF, 3, .Str [0x65]⟩]
     [0x65] (by decide),
   by decide, by decide,
   c8_language_precedence.2.2.2.2.2 [⟨ids.TAGLANGUAGE, 3, .Str [0x64]⟩] [0x64]
     (by decide) (by decide)⟩
